import Mathlib

/-!
Shallow embedding of `detect_secrets/core/usage.py`: the plugin catalog
(`PluginOptions.all_plugins`), the flag-name conversion
(`_convert_flag_text_to_argument_name`), the consolidation engine
(`PluginOptions.consolidate_args`) and the numeric-limit validator
(`PluginOptions._argparse_minmax_type`).

Python runtime values that flow through the consolidation code are `None`,
booleans, floats and strings; they are modelled by `Value`, with floats as
rationals.  An `argparse.Namespace` is a finite attribute map; it is modelled
as an association list with Python-dict semantics (`dictLookup`, `dictSet`,
`removeField`).  `getattr` without a default and `delattr` raise
`AttributeError` on a missing attribute, so the consolidation function
returns `Except String`.
-/

/-- A Python runtime value as it occurs in the parsed-argument namespace:
`None`, a bool (disable flags), a float (entropy limits, as a rational) or a
string. -/
inductive Value where
  | none : Value
  | bool (b : Bool) : Value
  | num (q : ℚ) : Value
  | str (s : String) : Value
deriving DecidableEq, Repr

/-- Python truthiness of a `Value` (`None`, `False`, `0`, `""` are falsy). -/
def truthy : Value → Bool
  | Value.none => false
  | Value.bool b => b
  | Value.num q => decide (q ≠ 0)
  | Value.str s => decide (s ≠ "")

/-- An attribute map (Python `argparse.Namespace.__dict__` / `dict`):
an association list from identifier to value. -/
abbrev Fields := List (String × Value)

/-- Python `d[k]` as an `Option`: the value under the first matching key. -/
def dictLookup {α : Type} (d : List (String × α)) (k : String) : Option α :=
  (d.find? (fun p => p.1 == k)).map (fun p => p.2)

/-- Python `d[k] = v` / `setattr`: replace the value under `k` in place if
the key is present, otherwise append the binding (dict insertion order). -/
def dictSet {α : Type} : List (String × α) → String → α → List (String × α)
  | [], k, v => [(k, v)]
  | p :: rest, k, v =>
      if p.1 == k then (k, v) :: rest else p :: dictSet rest k v

/-- Python `delattr` on a present attribute / `del d[k]`: drop the key. -/
def removeField {α : Type} (d : List (String × α)) (k : String) :
    List (String × α) :=
  d.filter (fun p => p.1 != k)

/-- Python `hasattr(args, k)`. -/
def hasKey (d : Fields) (k : String) : Bool :=
  (dictLookup d k).isSome

/-- One entry of `PluginDescriptor.related_args`.  In the source each entry
is meant to be a `(flag_text, default_value)` tuple; `consolidate_args`
guards the tuple unpacking with `try/except ValueError`, falling back to
treating the whole entry as a bare flag text with default `None`.  The
well-formed shape is `pair`; a malformed entry (not a 2-tuple, e.g. a bare
flag string) is `bare`. -/
inductive RelatedArg where
  | pair (flag_text : String) (default_value : Value) : RelatedArg
  | bare (flag_text : String) : RelatedArg
deriving DecidableEq, Repr

/-- The `try: flag_name, default_value = related_arg_tuple / except
ValueError: flag_name = related_arg_tuple; default_value = None` unpacking in
`consolidate_args`. -/
def unpackRelatedArg : RelatedArg → String × Value
  | RelatedArg.pair f d => (f, d)
  | RelatedArg.bare f => (f, Value.none)

/-- The flag text of a related-arg entry. -/
def RelatedArg.flagText : RelatedArg → String
  | RelatedArg.pair f _ => f
  | RelatedArg.bare f => f

/-- `PluginDescriptor` namedtuple from `usage.py` (the `__new__` override
only defaults `related_args` to `[]`). -/
structure PluginDescriptor where
  classname : String
  disable_flag_text : String
  disable_help_text : String
  related_args : List RelatedArg := []
deriving DecidableEq, Repr

namespace PluginOptions

/-- `PluginOptions._convert_flag_text_to_argument_name`:
`flag_text[2:].replace('-', '_')`.  The replaced pattern is the single
character `-`, so the replacement is the character map sending `-` to `_`,
applied to the string with its first two characters dropped. -/
def convert_flag_text_to_argument_name (flag_text : String) : String :=
  String.mk ((flag_text.data.drop 2).map (fun c => if c = '-' then '_' else c))

/-- First entry of `PluginOptions.all_plugins`.  The declared default of
`--hex-limit` is the Python int `3` (equal to the float `3.0`). -/
def hexPlugin : PluginDescriptor :=
  { classname := "HexHighEntropyString",
    disable_flag_text := "--no-hex-string-scan",
    disable_help_text := "Disables scanning for hex high entropy strings",
    related_args := [RelatedArg.pair "--hex-limit" (Value.num 3)] }

/-- Second entry of `PluginOptions.all_plugins`.  The declared default of
`--base64-limit` is the float `4.5`, i.e. the rational `9/2`. -/
def base64Plugin : PluginDescriptor :=
  { classname := "Base64HighEntropyString",
    disable_flag_text := "--no-base64-string-scan",
    disable_help_text := "Disables scanning for base64 high entropy strings",
    related_args := [RelatedArg.pair "--base64-limit" (Value.num (Rat.mk' 9 2))] }

/-- Third entry of `PluginOptions.all_plugins` (no related args). -/
def privateKeyPlugin : PluginDescriptor :=
  { classname := "PrivateKeyDetector",
    disable_flag_text := "--no-private-key-scan",
    disable_help_text := "Disables scanning for private keys." }

/-- Fourth entry of `PluginOptions.all_plugins` (no related args). -/
def basicAuthPlugin : PluginDescriptor :=
  { classname := "BasicAuthDetector",
    disable_flag_text := "--no-basic-auth-scan",
    disable_help_text := "Disables scanning for Basic Auth formatted URIs." }

/-- Fifth entry of `PluginOptions.all_plugins` (no related args). -/
def keywordPlugin : PluginDescriptor :=
  { classname := "KeywordDetector",
    disable_flag_text := "--no-keyword-scan",
    disable_help_text := "Disables scanning for secret keywords." }

/-- Sixth entry of `PluginOptions.all_plugins` (no related args). -/
def awsKeyPlugin : PluginDescriptor :=
  { classname := "AWSKeyDetector",
    disable_flag_text := "--no-aws-key-scan",
    disable_help_text := "Disables scanning for AWS keys." }

/-- Seventh entry of `PluginOptions.all_plugins` (no related args). -/
def slackPlugin : PluginDescriptor :=
  { classname := "SlackDetector",
    disable_flag_text := "--no-slack-scan",
    disable_help_text := "Disables scanning for Slack tokens." }

/-- `PluginOptions.all_plugins`: the static, ordered plugin catalog. -/
def all_plugins : List PluginDescriptor :=
  [hexPlugin, base64Plugin, privateKeyPlugin, basicAuthPlugin,
   keywordPlugin, awsKeyPlugin, slackPlugin]

/-- Intermediate state of the `for plugin in PluginOptions.all_plugins`
loop in `consolidate_args`: the remaining attribute map and the
`active_plugins` / `is_using_default_value` dicts being built. -/
structure ConsState where
  fields : Fields
  active_plugins : List (String × Fields)
  is_using_default_value : List (String × Bool)
deriving DecidableEq, Repr

/-- The body of the inner `for related_arg_tuple in plugin.related_args`
loop.  State: (remaining attribute map, `related_args` dict being built,
`is_using_default_value` dict).  `related_args[arg_name] = getattr(args,
arg_name)` raises `AttributeError` when the attribute is missing; then
`delattr` removes it, and the default is substituted only when the default
is truthy and the stored raw value is `None`. -/
def consolidate_related_arg (st : Fields × Fields × List (String × Bool))
    (ra : RelatedArg) : Except String (Fields × Fields × List (String × Bool)) :=
  let flag_name := (unpackRelatedArg ra).1
  let default_value := (unpackRelatedArg ra).2
  let arg_name := convert_flag_text_to_argument_name flag_name
  match dictLookup st.1 arg_name with
  | Option.none => Except.error ("AttributeError: " ++ arg_name)
  | Option.some v =>
      let fields := removeField st.1 arg_name
      let related := dictSet st.2.1 arg_name v
      if truthy default_value && (v == Value.none) then
        Except.ok (fields, dictSet related arg_name default_value,
          dictSet st.2.2 arg_name true)
      else
        Except.ok (fields, related, st.2.2)

/-- The inner `for related_arg_tuple in plugin.related_args` loop. -/
def consolidate_related (ras : List RelatedArg)
    (st : Fields × Fields × List (String × Bool)) :
    Except String (Fields × Fields × List (String × Bool)) :=
  ras.foldlM consolidate_related_arg st

/-- The body of the outer `for plugin in PluginOptions.all_plugins` loop.
`is_disabled = getattr(args, arg_name, False)` defaults a missing disable
attribute to `False`, but the very next `delattr(args, arg_name)` raises
`AttributeError` on that same missing attribute, so the missing case is an
error.  A disabled plugin is skipped after its disable attribute is
removed; otherwise the related args are consolidated and recorded under the
plugin classname. -/
def consolidate_plugin (st : ConsState) (plugin : PluginDescriptor) :
    Except String ConsState :=
  let arg_name := convert_flag_text_to_argument_name plugin.disable_flag_text
  match dictLookup st.fields arg_name with
  | Option.none => Except.error ("AttributeError: " ++ arg_name)
  | Option.some v =>
      let fields := removeField st.fields arg_name
      if truthy v then
        Except.ok { st with fields := fields }
      else
        match consolidate_related plugin.related_args
            (fields, [], st.is_using_default_value) with
        | Except.error e => Except.error e
        | Except.ok (fields2, related, using2) =>
            Except.ok { fields := fields2,
                        active_plugins :=
                          dictSet st.active_plugins plugin.classname related,
                        is_using_default_value := using2 }

/-- The catalog loop of `consolidate_args`. -/
def consolidate_loop (catalog : List PluginDescriptor) (st : ConsState) :
    Except String ConsState :=
  catalog.foldlM consolidate_plugin st

/-- The observable result of `consolidate_args`: the mutated attribute map,
and the `plugins` / `is_using_default_value` attributes it attaches (absent,
i.e. `Option.none`, when the hex-limit guard makes the call a no-op). -/
structure ConsolidatedOutput where
  fields : Fields
  plugins : Option (List (String × Fields))
  is_using_default_value : Option (List (String × Bool))
deriving DecidableEq, Repr

/-- `PluginOptions.consolidate_args`, generalised over the catalog the loop
iterates (the source iterates the class attribute `all_plugins`).  The
`hasattr(args, 'hex_limit')` guard returns the input untouched with no
`plugins` / `is_using_default_value` attributes attached. -/
def consolidate_args_over (catalog : List PluginDescriptor) (args : Fields) :
    Except String ConsolidatedOutput :=
  if hasKey args "hex_limit" = false then
    Except.ok { fields := args,
                plugins := Option.none,
                is_using_default_value := Option.none }
  else
    match consolidate_loop catalog { fields := args,
                                     active_plugins := [],
                                     is_using_default_value := [] } with
    | Except.error e => Except.error e
    | Except.ok st =>
        Except.ok { fields := st.fields,
                    plugins := Option.some st.active_plugins,
                    is_using_default_value :=
                      Option.some st.is_using_default_value }

/-- `PluginOptions.consolidate_args` proper: the loop runs over
`all_plugins`. -/
def consolidate_args (args : Fields) : Except String ConsolidatedOutput :=
  consolidate_args_over all_plugins args

/-- `PluginOptions._argparse_minmax_type`, after the `float(string)` parse:
raises `argparse.ArgumentTypeError` unless `0 <= value <= 8`. -/
def argparse_minmax_type (value : ℚ) : Except String ℚ :=
  if value < 0 ∨ value > 8 then
    Except.error "must be between 0.0 and 8.0"
  else
    Except.ok value

/-- The full argparse type callback for the numeric limit flags.  The
`float(string)` builtin is an external collaborator; its outcome is passed
in as an `Option ℚ`, `Option.none` standing for a non-numeric string, on
which `float` raises `ValueError` (reported by argparse as a grammar-level
error, like `ArgumentTypeError`). -/
def minmax_type_of_parsed (parsed : Option ℚ) : Except String ℚ :=
  match parsed with
  | Option.none => Except.error "ValueError: could not convert string to float"
  | Option.some value => argparse_minmax_type value

/-- The identifiers `consolidate_args` reads and removes for one
descriptor: the disable-flag identifier and the related-param
identifiers. -/
def consumedNames (p : PluginDescriptor) : List String :=
  convert_flag_text_to_argument_name p.disable_flag_text ::
    p.related_args.map (fun ra => convert_flag_text_to_argument_name ra.flagText)

/-! ### Lemmas about the dictionary model -/

theorem unpackRelatedArg_fst (ra : RelatedArg) :
    (unpackRelatedArg ra).1 = ra.flagText := by
  cases ra <;> rfl

theorem dictLookup_cons {α : Type} (p : String × α) (d : List (String × α))
    (k : String) :
    dictLookup (p :: d) k = if p.1 == k then Option.some p.2 else dictLookup d k := by
  cases h : p.1 == k <;> simp [dictLookup, List.find?, h]

theorem dictLookup_removeField {α : Type} (d : List (String × α)) (n k : String) :
    dictLookup (removeField d n) k =
      if n == k then Option.none else dictLookup d k := by
  induction d with
  | nil => cases h : n == k <;> simp [removeField, dictLookup, h]
  | cons p rest ih =>
      by_cases hpn : p.1 = n <;> by_cases hnk : n = k <;>
        simp_all [removeField, List.filter_cons, dictLookup_cons]

theorem dictLookup_dictSet {α : Type} (d : List (String × α)) (n k : String)
    (v : α) :
    dictLookup (dictSet d n v) k =
      if n == k then Option.some v else dictLookup d k := by
  induction d with
  | nil => cases h : n == k <;> simp [dictSet, dictLookup, List.find?, h]
  | cons p rest ih =>
      by_cases hpn : p.1 = n <;> by_cases hnk : n = k <;>
        simp_all [dictSet, dictLookup_cons]

theorem dictLookup_removeField_none {α : Type} (d : List (String × α))
    (n k : String) (h : dictLookup d k = Option.none) :
    dictLookup (removeField d n) k = Option.none := by
  rw [dictLookup_removeField]
  split <;> simp [h]

/-! ### Unfolding equations for the consolidation loops -/

theorem consolidate_related_nil (st : Fields × Fields × List (String × Bool)) :
    consolidate_related [] st = Except.ok st := rfl

theorem consolidate_related_cons (ra : RelatedArg) (ras : List RelatedArg)
    (st : Fields × Fields × List (String × Bool)) :
    consolidate_related (ra :: ras) st =
      match consolidate_related_arg st ra with
      | Except.error e => Except.error e
      | Except.ok m => consolidate_related ras m := by
  cases h : consolidate_related_arg st ra <;>
    simp [consolidate_related, List.foldlM, h, Bind.bind, Except.bind]

theorem consolidate_loop_nil (st : ConsState) :
    consolidate_loop [] st = Except.ok st := rfl

theorem consolidate_loop_cons (p : PluginDescriptor)
    (L : List PluginDescriptor) (st : ConsState) :
    consolidate_loop (p :: L) st =
      match consolidate_plugin st p with
      | Except.error e => Except.error e
      | Except.ok m => consolidate_loop L m := by
  cases h : consolidate_plugin st p <;>
    simp [consolidate_loop, List.foldlM, h, Bind.bind, Except.bind]

/-! ### Inversion and frame lemmas for the consolidation steps -/

theorem consolidate_related_arg_ok_inv
    {st m : Fields × Fields × List (String × Bool)} {ra : RelatedArg}
    (h : consolidate_related_arg st ra = Except.ok m) :
    ∃ v, dictLookup st.1 (convert_flag_text_to_argument_name ra.flagText) =
        Option.some v ∧
      m.1 = removeField st.1 (convert_flag_text_to_argument_name ra.flagText) ∧
      ((truthy (unpackRelatedArg ra).2 && (v == Value.none)) = true ∧
        m.2.1 = dictSet
          (dictSet st.2.1 (convert_flag_text_to_argument_name ra.flagText) v)
          (convert_flag_text_to_argument_name ra.flagText)
          (unpackRelatedArg ra).2 ∧
        m.2.2 = dictSet st.2.2 (convert_flag_text_to_argument_name ra.flagText) true
       ∨ (truthy (unpackRelatedArg ra).2 && (v == Value.none)) = false ∧
        m.2.1 = dictSet st.2.1 (convert_flag_text_to_argument_name ra.flagText) v ∧
        m.2.2 = st.2.2) := by
  simp only [consolidate_related_arg, unpackRelatedArg_fst] at h
  split at h
  · exact absurd h (by simp)
  · rename_i v hv
    refine ⟨v, hv, ?_⟩
    split at h
    · rename_i hcond
      injection h with h2
      subst h2
      exact ⟨rfl, Or.inl ⟨hcond, rfl, rfl⟩⟩
    · rename_i hcond
      injection h with h2
      subst h2
      exact ⟨rfl, Or.inr ⟨by simpa using hcond, rfl, rfl⟩⟩

theorem consolidate_related_arg_frame
    {st m : Fields × Fields × List (String × Bool)} {ra : RelatedArg}
    (h : consolidate_related_arg st ra = Except.ok m) (k : String)
    (hk : convert_flag_text_to_argument_name ra.flagText ≠ k) :
    dictLookup m.1 k = dictLookup st.1 k ∧
    dictLookup m.2.1 k = dictLookup st.2.1 k ∧
    dictLookup m.2.2 k = dictLookup st.2.2 k := by
  obtain ⟨v, hv, hm1, hrest⟩ := consolidate_related_arg_ok_inv h
  refine ⟨?_, ?_, ?_⟩
  · rw [hm1, dictLookup_removeField]
    simp [hk]
  · rcases hrest with ⟨_, h21, _⟩ | ⟨_, h21, _⟩ <;>
      rw [h21] <;> simp [dictLookup_dictSet, hk]
  · rcases hrest with ⟨_, _, h22⟩ | ⟨_, _, h22⟩ <;> rw [h22]
    simp [dictLookup_dictSet, hk]

theorem consolidate_related_arg_fields_none
    {st m : Fields × Fields × List (String × Bool)} {ra : RelatedArg}
    (h : consolidate_related_arg st ra = Except.ok m) (k : String)
    (hk : dictLookup st.1 k = Option.none) :
    dictLookup m.1 k = Option.none := by
  obtain ⟨v, _, hm1, _⟩ := consolidate_related_arg_ok_inv h
  rw [hm1]
  exact dictLookup_removeField_none _ _ _ hk

theorem consolidate_related_frame {ras : List RelatedArg}
    {st st' : Fields × Fields × List (String × Bool)}
    (h : consolidate_related ras st = Except.ok st') (k : String)
    (hk : ∀ ra ∈ ras, convert_flag_text_to_argument_name ra.flagText ≠ k) :
    dictLookup st'.1 k = dictLookup st.1 k ∧
    dictLookup st'.2.1 k = dictLookup st.2.1 k ∧
    dictLookup st'.2.2 k = dictLookup st.2.2 k := by
  induction ras generalizing st with
  | nil =>
      rw [consolidate_related_nil] at h
      obtain rfl : st = st' := by simpa using h
      exact ⟨rfl, rfl, rfl⟩
  | cons ra ras ih =>
      rw [consolidate_related_cons] at h
      cases hra : consolidate_related_arg st ra with
      | error e => rw [hra] at h; exact absurd h (by simp)
      | ok m =>
          rw [hra] at h
          have h1 := consolidate_related_arg_frame hra k (hk ra (by simp))
          have h2 := ih h (fun ra2 hmem => hk ra2 (by simp [hmem]))
          exact ⟨h2.1.trans h1.1, h2.2.1.trans h1.2.1, h2.2.2.trans h1.2.2⟩

theorem consolidate_related_fields_none {ras : List RelatedArg}
    {st st' : Fields × Fields × List (String × Bool)}
    (h : consolidate_related ras st = Except.ok st') (k : String)
    (hk : dictLookup st.1 k = Option.none) :
    dictLookup st'.1 k = Option.none := by
  induction ras generalizing st with
  | nil =>
      rw [consolidate_related_nil] at h
      obtain rfl : st = st' := by simpa using h
      exact hk
  | cons ra ras ih =>
      rw [consolidate_related_cons] at h
      cases hra : consolidate_related_arg st ra with
      | error e => rw [hra] at h; exact absurd h (by simp)
      | ok m =>
          rw [hra] at h
          exact ih h (consolidate_related_arg_fields_none hra k hk)

theorem consolidate_plugin_ok_inv {st m : ConsState} {p : PluginDescriptor}
    (h : consolidate_plugin st p = Except.ok m) :
    ∃ v, dictLookup st.fields
        (convert_flag_text_to_argument_name p.disable_flag_text) =
        Option.some v ∧
      ((truthy v = true ∧
        m.fields = removeField st.fields
          (convert_flag_text_to_argument_name p.disable_flag_text) ∧
        m.active_plugins = st.active_plugins ∧
        m.is_using_default_value = st.is_using_default_value)
       ∨ (truthy v = false ∧ ∃ r,
            consolidate_related p.related_args
              (removeField st.fields
                (convert_flag_text_to_argument_name p.disable_flag_text),
               [], st.is_using_default_value) =
              Except.ok (m.fields, r, m.is_using_default_value) ∧
            m.active_plugins = dictSet st.active_plugins p.classname r)) := by
  simp only [consolidate_plugin] at h
  split at h
  · exact absurd h (by simp)
  · rename_i v hv
    refine ⟨v, hv, ?_⟩
    split at h
    · rename_i hcond
      injection h with h2
      subst h2
      exact Or.inl ⟨hcond, rfl, rfl, rfl⟩
    · rename_i hcond
      split at h
      · exact absurd h (by simp)
      · rename_i f2 related u2 hrel
        injection h with h2
        subst h2
        exact Or.inr ⟨by simpa using hcond, related, hrel, rfl⟩

theorem consolidate_plugin_fields_none {st m : ConsState}
    {p : PluginDescriptor}
    (h : consolidate_plugin st p = Except.ok m) (k : String)
    (hk : dictLookup st.fields k = Option.none) :
    dictLookup m.fields k = Option.none := by
  obtain ⟨v, hv, hcase⟩ := consolidate_plugin_ok_inv h
  rcases hcase with ⟨_, hf, _, _⟩ | ⟨_, r, hrel, _⟩
  · rw [hf]
    exact dictLookup_removeField_none _ _ _ hk
  · have h3 : dictLookup m.fields k = Option.none :=
      consolidate_related_fields_none hrel k
        (dictLookup_removeField_none _ _ _ hk)
    exact h3

theorem consolidate_plugin_fields_frame {st m : ConsState}
    {p : PluginDescriptor}
    (h : consolidate_plugin st p = Except.ok m) (k : String)
    (hk : ¬ k ∈ consumedNames p) :
    dictLookup m.fields k = dictLookup st.fields k := by
  simp only [consumedNames, List.mem_cons, List.mem_map, not_or,
    not_exists] at hk
  obtain ⟨hk1, hk2⟩ := hk
  obtain ⟨v, hv, hcase⟩ := consolidate_plugin_ok_inv h
  rcases hcase with ⟨_, hf, _, _⟩ | ⟨_, r, hrel, _⟩
  · rw [hf, dictLookup_removeField]
    simp only [beq_iff_eq, ite_eq_right_iff]
    intro hx
    exact absurd hx.symm hk1
  · have hfr := consolidate_related_frame hrel k
      (fun ra hmem hxeq => by
        have := hk2 ra
        simp [hmem, hxeq] at this)
    have h3 : dictLookup m.fields k =
        dictLookup (removeField st.fields
          (convert_flag_text_to_argument_name p.disable_flag_text)) k := hfr.1
    rw [h3, dictLookup_removeField]
    simp only [beq_iff_eq, ite_eq_right_iff]
    intro hx
    exact absurd hx.symm hk1

theorem consolidate_plugin_active_frame {st m : ConsState}
    {p : PluginDescriptor}
    (h : consolidate_plugin st p = Except.ok m) (k : String)
    (hk : p.classname ≠ k) :
    dictLookup m.active_plugins k = dictLookup st.active_plugins k := by
  obtain ⟨v, hv, hcase⟩ := consolidate_plugin_ok_inv h
  rcases hcase with ⟨_, _, ha, _⟩ | ⟨_, r, _, ha⟩
  · rw [ha]
  · rw [ha]
    simp [dictLookup_dictSet, hk]

theorem consolidate_plugin_using_frame {st m : ConsState}
    {p : PluginDescriptor}
    (h : consolidate_plugin st p = Except.ok m) (k : String)
    (hk : ∀ ra ∈ p.related_args,
      convert_flag_text_to_argument_name ra.flagText ≠ k) :
    dictLookup m.is_using_default_value k =
      dictLookup st.is_using_default_value k := by
  obtain ⟨v, hv, hcase⟩ := consolidate_plugin_ok_inv h
  rcases hcase with ⟨_, _, _, hu⟩ | ⟨_, r, hrel, _⟩
  · rw [hu]
  · have h3 : dictLookup m.is_using_default_value k =
        dictLookup st.is_using_default_value k :=
      (consolidate_related_frame hrel k hk).2.2
    exact h3


theorem consolidate_loop_append_ok {l1 l2 : List PluginDescriptor}
    {st st' : ConsState}
    (h : consolidate_loop (l1 ++ l2) st = Except.ok st') :
    ∃ m, consolidate_loop l1 st = Except.ok m ∧
      consolidate_loop l2 m = Except.ok st' := by
  induction l1 generalizing st with
  | nil => exact ⟨st, consolidate_loop_nil st, h⟩
  | cons p rest ih =>
      rw [List.cons_append, consolidate_loop_cons] at h
      rw [consolidate_loop_cons]
      cases hp : consolidate_plugin st p with
      | error e => rw [hp] at h; exact absurd h (by simp)
      | ok m =>
          rw [hp] at h
          exact ih h

theorem consolidate_related_singleton_ok_inv {ra : RelatedArg}
    {st st' : Fields × Fields × List (String × Bool)}
    (h : consolidate_related [ra] st = Except.ok st') :
    consolidate_related_arg st ra = Except.ok st' := by
  rw [consolidate_related_cons] at h
  cases hra : consolidate_related_arg st ra with
  | error e => rw [hra] at h; exact absurd h (by simp)
  | ok m =>
      rw [hra] at h
      have h2 : consolidate_related [] m = Except.ok st' := h
      rw [consolidate_related_nil] at h2
      obtain rfl : m = st' := by simpa using h2
      rfl

theorem dictSet_single_overwrite {α : Type} (k : String) (v d : α) :
    dictSet [(k, v)] k d = [(k, d)] := by
  simp [dictSet]

theorem consolidate_plugin_disabled_inv {st m : ConsState}
    {p : PluginDescriptor} {w : Value}
    (h : consolidate_plugin st p = Except.ok m)
    (hw : dictLookup st.fields
      (convert_flag_text_to_argument_name p.disable_flag_text) =
      Option.some w)
    (hwt : truthy w = true) :
    m.fields = removeField st.fields
      (convert_flag_text_to_argument_name p.disable_flag_text) ∧
    m.active_plugins = st.active_plugins ∧
    m.is_using_default_value = st.is_using_default_value := by
  obtain ⟨v, hv, hcase⟩ := consolidate_plugin_ok_inv h
  rw [hw] at hv
  injection hv with hv2
  subst hv2
  rcases hcase with ⟨_, hrest⟩ | ⟨hfalse, _⟩
  · exact hrest
  · rw [hwt] at hfalse
    exact absurd hfalse (by simp)

theorem consolidate_plugin_paramless_inv {st m : ConsState}
    {p : PluginDescriptor} {w : Value}
    (h : consolidate_plugin st p = Except.ok m)
    (hra : p.related_args = [])
    (hw : dictLookup st.fields
      (convert_flag_text_to_argument_name p.disable_flag_text) =
      Option.some w)
    (hwf : truthy w = false) :
    m.fields = removeField st.fields
      (convert_flag_text_to_argument_name p.disable_flag_text) ∧
    m.active_plugins = dictSet st.active_plugins p.classname [] ∧
    m.is_using_default_value = st.is_using_default_value := by
  obtain ⟨v, hv, hcase⟩ := consolidate_plugin_ok_inv h
  rw [hw] at hv
  injection hv with hv2
  subst hv2
  rcases hcase with ⟨htrue, _⟩ | ⟨_, r, hrel, ha⟩
  · rw [hwf] at htrue
    exact absurd htrue (by simp)
  · rw [hra, consolidate_related_nil] at hrel
    injection hrel with h2
    have e1 : removeField st.fields
        (convert_flag_text_to_argument_name p.disable_flag_text) = m.fields :=
      congrArg Prod.fst h2
    have e2 : ([] : Fields) = r := congrArg (fun x => x.2.1) h2
    have e3 : st.is_using_default_value = m.is_using_default_value :=
      congrArg (fun x => x.2.2) h2
    refine ⟨e1.symm, ?_, e3.symm⟩
    rw [ha, ← e2]

theorem consolidate_plugin_single_inv {st m : ConsState}
    {p : PluginDescriptor} {flag : String} {d : Value} {w : Value}
    (h : consolidate_plugin st p = Except.ok m)
    (hra : p.related_args = [RelatedArg.pair flag d])
    (hw : dictLookup st.fields
      (convert_flag_text_to_argument_name p.disable_flag_text) =
      Option.some w)
    (hwf : truthy w = false)
    (hne : convert_flag_text_to_argument_name flag ≠
      convert_flag_text_to_argument_name p.disable_flag_text) :
    ∃ v, dictLookup st.fields (convert_flag_text_to_argument_name flag) =
        Option.some v ∧
      m.fields = removeField
        (removeField st.fields
          (convert_flag_text_to_argument_name p.disable_flag_text))
        (convert_flag_text_to_argument_name flag) ∧
      ((truthy d && (v == Value.none)) = true ∧
         m.active_plugins = dictSet st.active_plugins p.classname
           [(convert_flag_text_to_argument_name flag, d)] ∧
         m.is_using_default_value = dictSet st.is_using_default_value
           (convert_flag_text_to_argument_name flag) true
       ∨ (truthy d && (v == Value.none)) = false ∧
         m.active_plugins = dictSet st.active_plugins p.classname
           [(convert_flag_text_to_argument_name flag, v)] ∧
         m.is_using_default_value = st.is_using_default_value) := by
  obtain ⟨v0, hv0, hcase⟩ := consolidate_plugin_ok_inv h
  rw [hw] at hv0
  injection hv0 with hv0
  subst hv0
  rcases hcase with ⟨htrue, _⟩ | ⟨_, r, hrel, ha⟩
  · rw [hwf] at htrue
    exact absurd htrue (by simp)
  · rw [hra] at hrel
    have harg := consolidate_related_singleton_ok_inv hrel
    obtain ⟨v, hv, hm1, hcond⟩ := consolidate_related_arg_ok_inv harg
    have hv2 : dictLookup (removeField st.fields
        (convert_flag_text_to_argument_name p.disable_flag_text))
        (convert_flag_text_to_argument_name flag) = Option.some v := hv
    rw [dictLookup_removeField] at hv2
    rw [if_neg (by simpa using fun hx => hne hx.symm)] at hv2
    have hm1b : m.fields = removeField
        (removeField st.fields
          (convert_flag_text_to_argument_name p.disable_flag_text))
        (convert_flag_text_to_argument_name flag) := hm1
    refine ⟨v, hv2, hm1b, ?_⟩
    rcases hcond with ⟨hc, h21, h22⟩ | ⟨hc, h21, h22⟩
    · left
      have hcb : (truthy d && (v == Value.none)) = true := hc
      have h21b : r = dictSet (dictSet []
          (convert_flag_text_to_argument_name flag) v)
          (convert_flag_text_to_argument_name flag) d := h21
      have h22b : m.is_using_default_value = dictSet st.is_using_default_value
          (convert_flag_text_to_argument_name flag) true := h22
      refine ⟨hcb, ?_, h22b⟩
      rw [ha, h21b]
      rw [show dictSet ([] : Fields)
        (convert_flag_text_to_argument_name flag) v =
        [(convert_flag_text_to_argument_name flag, v)] from rfl]
      rw [dictSet_single_overwrite]
    · right
      have hcb : (truthy d && (v == Value.none)) = false := hc
      have h21b : r = dictSet ([] : Fields)
          (convert_flag_text_to_argument_name flag) v := h21
      have h22b : m.is_using_default_value = st.is_using_default_value := h22
      refine ⟨hcb, ?_, h22b⟩
      rw [ha, h21b]
      rfl

theorem consolidate_loop_fields_none {L : List PluginDescriptor}
    {st st' : ConsState}
    (h : consolidate_loop L st = Except.ok st') (k : String)
    (hk : dictLookup st.fields k = Option.none) :
    dictLookup st'.fields k = Option.none := by
  induction L generalizing st with
  | nil =>
      rw [consolidate_loop_nil] at h
      obtain rfl : st = st' := by simpa using h
      exact hk
  | cons p L ih =>
      rw [consolidate_loop_cons] at h
      cases hp : consolidate_plugin st p with
      | error e => rw [hp] at h; exact absurd h (by simp)
      | ok m =>
          rw [hp] at h
          exact ih h (consolidate_plugin_fields_none hp k hk)

theorem consolidate_loop_fields_frame {L : List PluginDescriptor}
    {st st' : ConsState}
    (h : consolidate_loop L st = Except.ok st') (k : String)
    (hk : ∀ p ∈ L, ¬ k ∈ consumedNames p) :
    dictLookup st'.fields k = dictLookup st.fields k := by
  induction L generalizing st with
  | nil =>
      rw [consolidate_loop_nil] at h
      obtain rfl : st = st' := by simpa using h
      rfl
  | cons p L ih =>
      rw [consolidate_loop_cons] at h
      cases hp : consolidate_plugin st p with
      | error e => rw [hp] at h; exact absurd h (by simp)
      | ok m =>
          rw [hp] at h
          have h1 := consolidate_plugin_fields_frame hp k (hk p (by simp))
          have h2 := ih h (fun q hq => hk q (by simp [hq]))
          exact h2.trans h1

theorem consolidate_loop_active_frame {L : List PluginDescriptor}
    {st st' : ConsState}
    (h : consolidate_loop L st = Except.ok st') (k : String)
    (hk : ∀ p ∈ L, p.classname ≠ k) :
    dictLookup st'.active_plugins k = dictLookup st.active_plugins k := by
  induction L generalizing st with
  | nil =>
      rw [consolidate_loop_nil] at h
      obtain rfl : st = st' := by simpa using h
      rfl
  | cons p L ih =>
      rw [consolidate_loop_cons] at h
      cases hp : consolidate_plugin st p with
      | error e => rw [hp] at h; exact absurd h (by simp)
      | ok m =>
          rw [hp] at h
          have h1 := consolidate_plugin_active_frame hp k (hk p (by simp))
          have h2 := ih h (fun q hq => hk q (by simp [hq]))
          exact h2.trans h1

theorem consolidate_loop_using_frame {L : List PluginDescriptor}
    {st st' : ConsState}
    (h : consolidate_loop L st = Except.ok st') (k : String)
    (hk : ∀ p ∈ L, ∀ ra ∈ p.related_args,
      convert_flag_text_to_argument_name ra.flagText ≠ k) :
    dictLookup st'.is_using_default_value k =
      dictLookup st.is_using_default_value k := by
  induction L generalizing st with
  | nil =>
      rw [consolidate_loop_nil] at h
      obtain rfl : st = st' := by simpa using h
      rfl
  | cons p L ih =>
      rw [consolidate_loop_cons] at h
      cases hp : consolidate_plugin st p with
      | error e => rw [hp] at h; exact absurd h (by simp)
      | ok m =>
          rw [hp] at h
          have h1 := consolidate_plugin_using_frame hp k (hk p (by simp))
          have h2 := ih h (fun q hq => hk q (by simp [hq]))
          exact h2.trans h1

theorem consolidate_loop_disable_missing {L : List PluginDescriptor}
    {st : ConsState} {p : PluginDescriptor} (hp : p ∈ L)
    (hk : dictLookup st.fields
      (convert_flag_text_to_argument_name p.disable_flag_text) = Option.none) :
    ∃ e, consolidate_loop L st = Except.error e := by
  induction L generalizing st with
  | nil => exact absurd hp (List.not_mem_nil p)
  | cons q L ih =>
      rw [consolidate_loop_cons]
      cases hq : consolidate_plugin st q with
      | error e => exact ⟨e, rfl⟩
      | ok m =>
          rcases List.mem_cons.mp hp with rfl | hp2
          · obtain ⟨v, hv, _⟩ := consolidate_plugin_ok_inv hq
            rw [hk] at hv
            exact absurd hv (by simp)
          · exact ih hp2 (consolidate_plugin_fields_none hq _ hk)

theorem not_mem_consumedNames_related {q : PluginDescriptor} {k : String}
    (h : ¬ k ∈ consumedNames q) :
    ∀ ra ∈ q.related_args,
      convert_flag_text_to_argument_name ra.flagText ≠ k := by
  simp only [consumedNames, List.mem_cons, List.mem_map, not_or,
    not_exists] at h
  intro ra hra hx
  exact (h.2 ra) ⟨hra, hx⟩

theorem loop_enabled_single_spec {l1 l2 : List PluginDescriptor}
    {p : PluginDescriptor} {flag : String} {d : Value} {args : Fields}
    {st' : ConsState} {w : Value}
    (h : consolidate_loop (l1 ++ p :: l2)
      { fields := args, active_plugins := [], is_using_default_value := [] } =
      Except.ok st')
    (hra : p.related_args = [RelatedArg.pair flag d])
    (hw : dictLookup args
      (convert_flag_text_to_argument_name p.disable_flag_text) =
      Option.some w)
    (hwf : truthy w = false)
    (hd1 : ∀ q ∈ l1,
      ¬ (convert_flag_text_to_argument_name p.disable_flag_text) ∈
        consumedNames q)
    (ha1 : ∀ q ∈ l1,
      ¬ (convert_flag_text_to_argument_name flag) ∈ consumedNames q)
    (hne : convert_flag_text_to_argument_name flag ≠
      convert_flag_text_to_argument_name p.disable_flag_text)
    (hc2 : ∀ q ∈ l2, q.classname ≠ p.classname)
    (hu2 : ∀ q ∈ l2,
      ¬ (convert_flag_text_to_argument_name flag) ∈ consumedNames q) :
    ∃ v, dictLookup args (convert_flag_text_to_argument_name flag) =
        Option.some v ∧
      dictLookup st'.fields
        (convert_flag_text_to_argument_name p.disable_flag_text) =
        Option.none ∧
      dictLookup st'.fields (convert_flag_text_to_argument_name flag) =
        Option.none ∧
      ((truthy d && (v == Value.none)) = true ∧
         dictLookup st'.active_plugins p.classname =
           Option.some [(convert_flag_text_to_argument_name flag, d)] ∧
         dictLookup st'.is_using_default_value
           (convert_flag_text_to_argument_name flag) = Option.some true
       ∨ (truthy d && (v == Value.none)) = false ∧
         dictLookup st'.active_plugins p.classname =
           Option.some [(convert_flag_text_to_argument_name flag, v)] ∧
         dictLookup st'.is_using_default_value
           (convert_flag_text_to_argument_name flag) = Option.none) := by
  obtain ⟨st1, h1, h23⟩ := consolidate_loop_append_ok h
  rw [consolidate_loop_cons] at h23
  cases hp : consolidate_plugin st1 p with
  | error e => rw [hp] at h23; exact absurd h23 (by simp)
  | ok m =>
      rw [hp] at h23
      have hw1 : dictLookup st1.fields
          (convert_flag_text_to_argument_name p.disable_flag_text) =
          Option.some w := by
        have hf1 : dictLookup st1.fields
            (convert_flag_text_to_argument_name p.disable_flag_text) =
            dictLookup args
              (convert_flag_text_to_argument_name p.disable_flag_text) :=
          consolidate_loop_fields_frame h1 _ hd1
        rw [hf1]
        exact hw
      have hfa : dictLookup st1.fields
          (convert_flag_text_to_argument_name flag) =
          dictLookup args (convert_flag_text_to_argument_name flag) :=
        consolidate_loop_fields_frame h1 _ ha1
      have hu1 : dictLookup st1.is_using_default_value
          (convert_flag_text_to_argument_name flag) = Option.none := by
        have h2 : dictLookup st1.is_using_default_value
            (convert_flag_text_to_argument_name flag) =
            dictLookup ([] : List (String × Bool))
              (convert_flag_text_to_argument_name flag) :=
          consolidate_loop_using_frame h1 _
            (fun q hq => not_mem_consumedNames_related (ha1 q hq))
        rw [h2]
        rfl
      obtain ⟨v, hv, hmf, hcase⟩ :=
        consolidate_plugin_single_inv hp hra hw1 hwf hne
      have hmd : dictLookup m.fields
          (convert_flag_text_to_argument_name p.disable_flag_text) =
          Option.none := by
        rw [hmf, dictLookup_removeField, dictLookup_removeField]
        simp [hne]
      have hma : dictLookup m.fields
          (convert_flag_text_to_argument_name flag) = Option.none := by
        rw [hmf, dictLookup_removeField]
        simp
      refine ⟨v, by rw [← hfa]; exact hv,
        consolidate_loop_fields_none h23 _ hmd,
        consolidate_loop_fields_none h23 _ hma, ?_⟩
      have hact2 : dictLookup st'.active_plugins p.classname =
          dictLookup m.active_plugins p.classname :=
        consolidate_loop_active_frame h23 _ (fun q hq => hc2 q hq)
      have husing2 : dictLookup st'.is_using_default_value
          (convert_flag_text_to_argument_name flag) =
          dictLookup m.is_using_default_value
            (convert_flag_text_to_argument_name flag) :=
        consolidate_loop_using_frame h23 _
          (fun q hq => not_mem_consumedNames_related (hu2 q hq))
      rcases hcase with ⟨hc, hact, husing⟩ | ⟨hc, hact, husing⟩
      · left
        refine ⟨hc, ?_, ?_⟩
        · rw [hact2, hact, dictLookup_dictSet]
          simp
        · rw [husing2, husing, dictLookup_dictSet]
          simp
      · right
        refine ⟨hc, ?_, ?_⟩
        · rw [hact2, hact, dictLookup_dictSet]
          simp
        · rw [husing2, husing, hu1]

theorem loop_enabled_paramless_spec {l1 l2 : List PluginDescriptor}
    {p : PluginDescriptor} {args : Fields} {st' : ConsState} {w : Value}
    (h : consolidate_loop (l1 ++ p :: l2)
      { fields := args, active_plugins := [], is_using_default_value := [] } =
      Except.ok st')
    (hra : p.related_args = [])
    (hw : dictLookup args
      (convert_flag_text_to_argument_name p.disable_flag_text) =
      Option.some w)
    (hwf : truthy w = false)
    (hd1 : ∀ q ∈ l1,
      ¬ (convert_flag_text_to_argument_name p.disable_flag_text) ∈
        consumedNames q)
    (hc2 : ∀ q ∈ l2, q.classname ≠ p.classname) :
    dictLookup st'.active_plugins p.classname = Option.some [] ∧
    dictLookup st'.fields
      (convert_flag_text_to_argument_name p.disable_flag_text) =
      Option.none := by
  obtain ⟨st1, h1, h23⟩ := consolidate_loop_append_ok h
  rw [consolidate_loop_cons] at h23
  cases hp : consolidate_plugin st1 p with
  | error e => rw [hp] at h23; exact absurd h23 (by simp)
  | ok m =>
      rw [hp] at h23
      have hw1 : dictLookup st1.fields
          (convert_flag_text_to_argument_name p.disable_flag_text) =
          Option.some w := by
        have hf1 : dictLookup st1.fields
            (convert_flag_text_to_argument_name p.disable_flag_text) =
            dictLookup args
              (convert_flag_text_to_argument_name p.disable_flag_text) :=
          consolidate_loop_fields_frame h1 _ hd1
        rw [hf1]
        exact hw
      obtain ⟨hmf, hact, husing⟩ :=
        consolidate_plugin_paramless_inv hp hra hw1 hwf
      constructor
      · have hact2 : dictLookup st'.active_plugins p.classname =
            dictLookup m.active_plugins p.classname :=
          consolidate_loop_active_frame h23 _ (fun q hq => hc2 q hq)
        rw [hact2, hact, dictLookup_dictSet]
        simp
      · have hmd : dictLookup m.fields
            (convert_flag_text_to_argument_name p.disable_flag_text) =
            Option.none := by
          rw [hmf, dictLookup_removeField]
          simp
        exact consolidate_loop_fields_none h23 _ hmd

theorem loop_disabled_spec {l1 l2 : List PluginDescriptor}
    {p : PluginDescriptor} {args : Fields} {st' : ConsState} {w : Value}
    (h : consolidate_loop (l1 ++ p :: l2)
      { fields := args, active_plugins := [], is_using_default_value := [] } =
      Except.ok st')
    (hw : dictLookup args
      (convert_flag_text_to_argument_name p.disable_flag_text) =
      Option.some w)
    (hwt : truthy w = true)
    (hd1 : ∀ q ∈ l1,
      ¬ (convert_flag_text_to_argument_name p.disable_flag_text) ∈
        consumedNames q)
    (hc1 : ∀ q ∈ l1, q.classname ≠ p.classname)
    (hc2 : ∀ q ∈ l2, q.classname ≠ p.classname) :
    dictLookup st'.active_plugins p.classname = Option.none ∧
    dictLookup st'.fields
      (convert_flag_text_to_argument_name p.disable_flag_text) =
      Option.none := by
  obtain ⟨st1, h1, h23⟩ := consolidate_loop_append_ok h
  rw [consolidate_loop_cons] at h23
  cases hp : consolidate_plugin st1 p with
  | error e => rw [hp] at h23; exact absurd h23 (by simp)
  | ok m =>
      rw [hp] at h23
      have hw1 : dictLookup st1.fields
          (convert_flag_text_to_argument_name p.disable_flag_text) =
          Option.some w := by
        have hf1 : dictLookup st1.fields
            (convert_flag_text_to_argument_name p.disable_flag_text) =
            dictLookup args
              (convert_flag_text_to_argument_name p.disable_flag_text) :=
          consolidate_loop_fields_frame h1 _ hd1
        rw [hf1]
        exact hw
      obtain ⟨hmf, hact, husing⟩ := consolidate_plugin_disabled_inv hp hw1 hwt
      constructor
      · have h0 : dictLookup st1.active_plugins p.classname =
            dictLookup ([] : List (String × Fields)) p.classname :=
          consolidate_loop_active_frame h1 _ (fun q hq => hc1 q hq)
        have hact2 : dictLookup st'.active_plugins p.classname =
            dictLookup m.active_plugins p.classname :=
          consolidate_loop_active_frame h23 _ (fun q hq => hc2 q hq)
        rw [hact2, hact, h0]
        rfl
      · have hmd : dictLookup m.fields
            (convert_flag_text_to_argument_name p.disable_flag_text) =
            Option.none := by
          rw [hmf, dictLookup_removeField]
          simp
        exact consolidate_loop_fields_none h23 _ hmd

theorem loop_disabled_frame_spec {l1 l2 : List PluginDescriptor}
    {p : PluginDescriptor} {args : Fields} {st' : ConsState} {w : Value}
    {k : String}
    (h : consolidate_loop (l1 ++ p :: l2)
      { fields := args, active_plugins := [], is_using_default_value := [] } =
      Except.ok st')
    (hw : dictLookup args
      (convert_flag_text_to_argument_name p.disable_flag_text) =
      Option.some w)
    (hwt : truthy w = true)
    (hd1 : ∀ q ∈ l1,
      ¬ (convert_flag_text_to_argument_name p.disable_flag_text) ∈
        consumedNames q)
    (hk1 : k ≠ convert_flag_text_to_argument_name p.disable_flag_text)
    (hk2 : ∀ q ∈ l1, ¬ k ∈ consumedNames q)
    (hk3 : ∀ q ∈ l2, ¬ k ∈ consumedNames q) :
    dictLookup st'.fields k = dictLookup args k ∧
    dictLookup st'.is_using_default_value k = Option.none := by
  obtain ⟨st1, h1, h23⟩ := consolidate_loop_append_ok h
  rw [consolidate_loop_cons] at h23
  cases hp : consolidate_plugin st1 p with
  | error e => rw [hp] at h23; exact absurd h23 (by simp)
  | ok m =>
      rw [hp] at h23
      have hw1 : dictLookup st1.fields
          (convert_flag_text_to_argument_name p.disable_flag_text) =
          Option.some w := by
        have hf1 : dictLookup st1.fields
            (convert_flag_text_to_argument_name p.disable_flag_text) =
            dictLookup args
              (convert_flag_text_to_argument_name p.disable_flag_text) :=
          consolidate_loop_fields_frame h1 _ hd1
        rw [hf1]
        exact hw
      obtain ⟨hmf, hact, husing⟩ := consolidate_plugin_disabled_inv hp hw1 hwt
      constructor
      · have hk0 : dictLookup st1.fields k = dictLookup args k :=
          consolidate_loop_fields_frame h1 _ hk2
        have hmk : dictLookup m.fields k = dictLookup args k := by
          rw [hmf, dictLookup_removeField]
          rw [if_neg (by simpa using fun hx => hk1 hx.symm)]
          exact hk0
        have h2 : dictLookup st'.fields k = dictLookup m.fields k :=
          consolidate_loop_fields_frame h23 _ hk3
        rw [h2, hmk]
      · have hu1 : dictLookup st1.is_using_default_value k = Option.none := by
          have h2 : dictLookup st1.is_using_default_value k =
              dictLookup ([] : List (String × Bool)) k :=
            consolidate_loop_using_frame h1 _
              (fun q hq => not_mem_consumedNames_related (hk2 q hq))
          rw [h2]
          rfl
        have h2 : dictLookup st'.is_using_default_value k =
            dictLookup m.is_using_default_value k :=
          consolidate_loop_using_frame h23 _
            (fun q hq => not_mem_consumedNames_related (hk3 q hq))
        rw [h2, husing, hu1]

theorem consolidate_args_over_guard {catalog : List PluginDescriptor}
    {args : Fields} (h : hasKey args "hex_limit" = false) :
    consolidate_args_over catalog args =
      Except.ok { fields := args,
                  plugins := Option.none,
                  is_using_default_value := Option.none } := by
  simp [consolidate_args_over, h]

theorem consolidate_args_over_of_loop_ok {catalog : List PluginDescriptor}
    {args : Fields} {st : ConsState}
    (hg : hasKey args "hex_limit" = true)
    (hst : consolidate_loop catalog { fields := args,
                                      active_plugins := [],
                                      is_using_default_value := [] } =
      Except.ok st) :
    consolidate_args_over catalog args =
      Except.ok { fields := st.fields,
                  plugins := Option.some st.active_plugins,
                  is_using_default_value :=
                    Option.some st.is_using_default_value } := by
  rw [consolidate_args_over, if_neg (by simp [hg]), hst]

theorem consolidate_args_over_of_loop_error {catalog : List PluginDescriptor}
    {args : Fields} {e : String}
    (hg : hasKey args "hex_limit" = true)
    (hst : consolidate_loop catalog { fields := args,
                                      active_plugins := [],
                                      is_using_default_value := [] } =
      Except.error e) :
    consolidate_args_over catalog args = Except.error e := by
  rw [consolidate_args_over, if_neg (by simp [hg]), hst]

theorem consolidate_args_over_ok_inv {catalog : List PluginDescriptor}
    {args : Fields} {out : ConsolidatedOutput}
    (h : consolidate_args_over catalog args = Except.ok out)
    (hg : hasKey args "hex_limit" = true) :
    ∃ st, consolidate_loop catalog { fields := args,
                                     active_plugins := [],
                                     is_using_default_value := [] } =
        Except.ok st ∧
      out.fields = st.fields ∧
      out.plugins = Option.some st.active_plugins ∧
      out.is_using_default_value = Option.some st.is_using_default_value := by
  rw [consolidate_args_over, if_neg (by simp [hg])] at h
  cases hst : consolidate_loop catalog { fields := args,
                                         active_plugins := [],
                                         is_using_default_value := [] } with
  | error e => rw [hst] at h; exact absurd h (by simp)
  | ok st =>
      rw [hst] at h
      injection h with h2
      subst h2
      exact ⟨st, rfl, rfl, rfl, rfl⟩

theorem hasKey_of_plugins_some {catalog : List PluginDescriptor}
    {args : Fields} {out : ConsolidatedOutput}
    (hok : consolidate_args_over catalog args = Except.ok out)
    (h : out.plugins ≠ Option.none) :
    hasKey args "hex_limit" = true := by
  cases hg : hasKey args "hex_limit"
  · rw [consolidate_args_over_guard hg] at hok
    injection hok with h2
    rw [← h2] at h
    exact absurd rfl h
  · rfl

theorem consolidate_plugin_single_bare_inv {st m : ConsState}
    {p : PluginDescriptor} {flag : String} {w : Value}
    (h : consolidate_plugin st p = Except.ok m)
    (hra : p.related_args = [RelatedArg.bare flag])
    (hw : dictLookup st.fields
      (convert_flag_text_to_argument_name p.disable_flag_text) =
      Option.some w)
    (hwf : truthy w = false)
    (hne : convert_flag_text_to_argument_name flag ≠
      convert_flag_text_to_argument_name p.disable_flag_text) :
    ∃ v, dictLookup st.fields (convert_flag_text_to_argument_name flag) =
        Option.some v ∧
      m.fields = removeField
        (removeField st.fields
          (convert_flag_text_to_argument_name p.disable_flag_text))
        (convert_flag_text_to_argument_name flag) ∧
      m.active_plugins = dictSet st.active_plugins p.classname
        [(convert_flag_text_to_argument_name flag, v)] ∧
      m.is_using_default_value = st.is_using_default_value := by
  obtain ⟨v0, hv0, hcase⟩ := consolidate_plugin_ok_inv h
  rw [hw] at hv0
  injection hv0 with hv0
  subst hv0
  rcases hcase with ⟨htrue, _⟩ | ⟨_, r, hrel, ha⟩
  · rw [hwf] at htrue
    exact absurd htrue (by simp)
  · rw [hra] at hrel
    have harg := consolidate_related_singleton_ok_inv hrel
    obtain ⟨v, hv, hm1, hcond⟩ := consolidate_related_arg_ok_inv harg
    have hv2 : dictLookup (removeField st.fields
        (convert_flag_text_to_argument_name p.disable_flag_text))
        (convert_flag_text_to_argument_name flag) = Option.some v := hv
    rw [dictLookup_removeField] at hv2
    rw [if_neg (by simpa using fun hx => hne hx.symm)] at hv2
    have hm1b : m.fields = removeField
        (removeField st.fields
          (convert_flag_text_to_argument_name p.disable_flag_text))
        (convert_flag_text_to_argument_name flag) := hm1
    refine ⟨v, hv2, hm1b, ?_⟩
    rcases hcond with ⟨hc, _, _⟩ | ⟨_, h21, h22⟩
    · simp [unpackRelatedArg, truthy] at hc
    · have h21b : r = dictSet ([] : Fields)
          (convert_flag_text_to_argument_name flag) v := h21
      have h22b : m.is_using_default_value = st.is_using_default_value := h22
      refine ⟨?_, h22b⟩
      rw [ha, h21b]
      rfl

/-! ### Claims -/

/-- C5: for every raw input lacking the `hex_limit` identifier,
`consolidate_args` is a no-op: it returns without error, leaves the raw
attribute map unchanged, and attaches no `plugins` and no
`is_using_default_value` attributes to the output. -/
theorem claim_C5 (args : Fields)
    (hg : hasKey args "hex_limit" = false) :
    consolidate_args args =
      Except.ok { fields := args,
                  plugins := Option.none,
                  is_using_default_value := Option.none } :=
  consolidate_args_over_guard hg

/-- Witness for C5 at a concrete raw input without `hex_limit`. -/
theorem claim_C5_witness :
    hasKey [("verbose", Value.num 1),
            ("filename", Value.str "baseline")] "hex_limit" = false ∧
    consolidate_args [("verbose", Value.num 1),
                      ("filename", Value.str "baseline")] =
      Except.ok { fields := [("verbose", Value.num 1),
                             ("filename", Value.str "baseline")],
                  plugins := Option.none,
                  is_using_default_value := Option.none } :=
  ⟨by rfl, claim_C5 [("verbose", Value.num 1),
                     ("filename", Value.str "baseline")] (by rfl)⟩

/-- C7: the numeric-limit validator accepts every parsed float in the
inclusive range 0.0 to 8.0, returning the parsed value, and rejects with an
error every parsed value outside that range as well as a non-numeric string
(on which the float parse itself fails). -/
theorem claim_C7 :
    (∀ q : ℚ, 0 ≤ q → q ≤ 8 →
      minmax_type_of_parsed (Option.some q) = Except.ok q) ∧
    (∀ q : ℚ, q < 0 ∨ 8 < q →
      ∃ e, minmax_type_of_parsed (Option.some q) = Except.error e) ∧
    (∃ e, minmax_type_of_parsed Option.none = Except.error e) := by
  refine ⟨?_, ?_, ⟨_, rfl⟩⟩
  · intro q h0 h8
    simp only [minmax_type_of_parsed, argparse_minmax_type]
    rw [if_neg]
    push_neg
    exact ⟨h0, h8⟩
  · intro q hq
    refine ⟨"must be between 0.0 and 8.0", ?_⟩
    simp only [minmax_type_of_parsed, argparse_minmax_type]
    rw [if_pos]
    rcases hq with hq | hq
    · exact Or.inl hq
    · exact Or.inr hq

/-- Witness for C7: `0.0` and `8.0` are accepted, `8.01` and `-0.1`
rejected. -/
theorem claim_C7_witness :
    minmax_type_of_parsed (Option.some 0) = Except.ok 0 ∧
    minmax_type_of_parsed (Option.some 8) = Except.ok 8 ∧
    (∃ e, minmax_type_of_parsed (Option.some (Rat.mk' 801 100)) =
      Except.error e) ∧
    (∃ e, minmax_type_of_parsed (Option.some (Rat.mk' (-1) 10)) =
      Except.error e) :=
  ⟨claim_C7.1 0 (by norm_num) (by norm_num),
   claim_C7.1 8 (by norm_num) (by norm_num),
   claim_C7.2.1 (Rat.mk' 801 100) (Or.inr (by decide)),
   claim_C7.2.1 (Rat.mk' (-1) 10) (Or.inl (by decide))⟩

/-- C8 counterexample: with `hex_limit` present but the hex disable-flag
identifier absent from the raw input, `consolidate_args` does not complete
normally; the `delattr` on the absent disable attribute raises
`AttributeError` (the `getattr` default `False` is immediately followed by
the failing `delattr`). -/
theorem claim_C8_counterexample :
    consolidate_args [("hex_limit", Value.none)] =
      Except.error "AttributeError: no_hex_string_scan" := by
  rfl

/-- C8 amended: for every descriptor of the catalog, if the raw input has
the `hex_limit` identifier but lacks that descriptor's disable-flag
identifier, the disable value read defaults to false, but `consolidate_args`
then raises an `AttributeError` when removing the absent identifier instead
of completing normally. -/
theorem claim_C8_amended (p : PluginDescriptor) (hp : p ∈ all_plugins)
    (args : Fields)
    (hg : hasKey args "hex_limit" = true)
    (hmiss : dictLookup args
      (convert_flag_text_to_argument_name p.disable_flag_text) =
      Option.none) :
    ∃ e, consolidate_args args = Except.error e := by
  have hk : dictLookup (ConsState.mk args [] []).fields
      (convert_flag_text_to_argument_name p.disable_flag_text) =
      Option.none := hmiss
  obtain ⟨e, he⟩ := consolidate_loop_disable_missing hp hk
  exact ⟨e, consolidate_args_over_of_loop_error hg he⟩

/-- Witness for the amended C8 at the concrete failing input. -/
theorem claim_C8_amended_witness :
    ∃ e, consolidate_args [("hex_limit", Value.none)] = Except.error e :=
  claim_C8_amended hexPlugin (by decide) [("hex_limit", Value.none)]
    (by rfl) (by rfl)

/-- C6 counterexample: a descriptor carrying a malformed related-param
entry (a bare flag text instead of a `(flag, default)` pair) does not make
consolidation fail fast; the `except ValueError` fallback silently treats
the entry as a flag with no default and a fully consolidated result is
produced. -/
theorem claim_C6_counterexample :
    consolidate_args_over
      [{ classname := "FakeDetector",
         disable_flag_text := "--no-fake-scan",
         disable_help_text := "Disables a fake detector.",
         related_args := [RelatedArg.bare "--fake-limit"] }]
      [("hex_limit", Value.num 3), ("no_fake_scan", Value.bool false),
       ("fake_limit", Value.num 5)] =
    Except.ok { fields := [("hex_limit", Value.num 3)],
                plugins := Option.some
                  [("FakeDetector", [("fake_limit", Value.num 5)])],
                is_using_default_value := Option.some [] } := by
  rfl

/-- C6 amended: `consolidate_args` does not fail fast on a malformed
related-param entry; the failed tuple unpacking is caught and the entry is
treated as a bare flag name with default `None`, so consolidation completes
with the raw value kept as-is and the parameter never recorded in
`is_using_default_value`. -/
theorem claim_C6_amended (desc : PluginDescriptor) (flag : String)
    (args : Fields) (w v : Value) (out : ConsolidatedOutput)
    (hra : desc.related_args = [RelatedArg.bare flag])
    (hok : consolidate_args_over [desc] args = Except.ok out)
    (hg : hasKey args "hex_limit" = true)
    (hw : dictLookup args
      (convert_flag_text_to_argument_name desc.disable_flag_text) =
      Option.some w)
    (hwf : truthy w = false)
    (hv : dictLookup args (convert_flag_text_to_argument_name flag) =
      Option.some v)
    (hne : convert_flag_text_to_argument_name flag ≠
      convert_flag_text_to_argument_name desc.disable_flag_text) :
    ∃ ap, out.plugins = Option.some ap ∧
      dictLookup ap desc.classname =
        Option.some [(convert_flag_text_to_argument_name flag, v)] ∧
      out.is_using_default_value = Option.some [] := by
  obtain ⟨st, hst, hf, hpl, hu⟩ := consolidate_args_over_ok_inv hok hg
  rw [consolidate_loop_cons] at hst
  cases hp : consolidate_plugin
      { fields := args, active_plugins := [],
        is_using_default_value := [] } desc with
  | error e => rw [hp] at hst; exact absurd hst (by simp)
  | ok m =>
      rw [hp] at hst
      have hst2 : consolidate_loop [] m = Except.ok st := hst
      rw [consolidate_loop_nil] at hst2
      obtain rfl : m = st := by simpa using hst2
      have hw1 : dictLookup (ConsState.mk args [] []).fields
          (convert_flag_text_to_argument_name desc.disable_flag_text) =
          Option.some w := hw
      obtain ⟨v2, hv2, hmf, hact, hus⟩ :=
        consolidate_plugin_single_bare_inv hp hra hw1 hwf hne
      have hv2b : dictLookup args (convert_flag_text_to_argument_name flag) =
          Option.some v2 := hv2
      rw [hv] at hv2b
      injection hv2b with hv2b
      subst hv2b
      refine ⟨m.active_plugins, hpl, ?_, ?_⟩
      · have hact2 : m.active_plugins = dictSet [] desc.classname
            [(convert_flag_text_to_argument_name flag, v)] := hact
        rw [hact2, dictLookup_dictSet]
        simp
      · have hus2 : m.is_using_default_value = [] := hus
        rw [hu, hus2]

/-- Witness for the amended C6 at a concrete malformed descriptor. -/
theorem claim_C6_amended_witness :
    ∃ ap, (ConsolidatedOutput.mk [("hex_limit", Value.num 3)]
        (Option.some [("FakeDetector", [("fake_limit", Value.num 5)])])
        (Option.some [])).plugins = Option.some ap ∧
      dictLookup ap "FakeDetector" =
        Option.some [("fake_limit", Value.num 5)] ∧
      (ConsolidatedOutput.mk [("hex_limit", Value.num 3)]
        (Option.some [("FakeDetector", [("fake_limit", Value.num 5)])])
        (Option.some [])).is_using_default_value = Option.some [] :=
  claim_C6_amended
    { classname := "FakeDetector",
      disable_flag_text := "--no-fake-scan",
      disable_help_text := "Disables a fake detector.",
      related_args := [RelatedArg.bare "--fake-limit"] }
    "--fake-limit"
    [("hex_limit", Value.num 3), ("no_fake_scan", Value.bool false),
     ("fake_limit", Value.num 5)]
    (Value.bool false) (Value.num 5) _
    (by rfl) (by rfl) (by rfl) (by rfl) (by rfl) (by rfl) (by decide)

/-- C3: for every descriptor in `all_plugins`, if the raw input sets that
descriptor's disable-flag identifier to a truthy value, then after
`consolidate_args` the descriptor's classname is absent from the attached
`plugins` mapping. -/
theorem claim_C3 (p : PluginDescriptor) (hp : p ∈ all_plugins)
    (args : Fields) (out : ConsolidatedOutput)
    (ap : List (String × Fields)) (w : Value)
    (hok : consolidate_args args = Except.ok out)
    (hw : dictLookup args
      (convert_flag_text_to_argument_name p.disable_flag_text) =
      Option.some w)
    (hwt : truthy w = true)
    (hap : out.plugins = Option.some ap) :
    dictLookup ap p.classname = Option.none := by
  have hok2 : consolidate_args_over all_plugins args = Except.ok out := hok
  have hg := hasKey_of_plugins_some hok2 (by rw [hap]; simp)
  obtain ⟨st, hst, hf, hpl, hu⟩ := consolidate_args_over_ok_inv hok2 hg
  have hap2 : ap = st.active_plugins := by
    rw [hap] at hpl
    exact Option.some.inj hpl
  subst hap2
  fin_cases hp
  · have h2 : consolidate_loop ([] ++ hexPlugin ::
        [base64Plugin, privateKeyPlugin, basicAuthPlugin, keywordPlugin,
         awsKeyPlugin, slackPlugin])
        { fields := args, active_plugins := [],
          is_using_default_value := [] } = Except.ok st := hst
    exact (loop_disabled_spec h2 hw hwt (by decide) (by decide) (by decide)).1
  · have h2 : consolidate_loop ([hexPlugin] ++ base64Plugin ::
        [privateKeyPlugin, basicAuthPlugin, keywordPlugin,
         awsKeyPlugin, slackPlugin])
        { fields := args, active_plugins := [],
          is_using_default_value := [] } = Except.ok st := hst
    exact (loop_disabled_spec h2 hw hwt (by decide) (by decide) (by decide)).1
  · have h2 : consolidate_loop ([hexPlugin, base64Plugin] ++
        privateKeyPlugin ::
        [basicAuthPlugin, keywordPlugin, awsKeyPlugin, slackPlugin])
        { fields := args, active_plugins := [],
          is_using_default_value := [] } = Except.ok st := hst
    exact (loop_disabled_spec h2 hw hwt (by decide) (by decide) (by decide)).1
  · have h2 : consolidate_loop ([hexPlugin, base64Plugin,
        privateKeyPlugin] ++ basicAuthPlugin ::
        [keywordPlugin, awsKeyPlugin, slackPlugin])
        { fields := args, active_plugins := [],
          is_using_default_value := [] } = Except.ok st := hst
    exact (loop_disabled_spec h2 hw hwt (by decide) (by decide) (by decide)).1
  · have h2 : consolidate_loop ([hexPlugin, base64Plugin, privateKeyPlugin,
        basicAuthPlugin] ++ keywordPlugin :: [awsKeyPlugin, slackPlugin])
        { fields := args, active_plugins := [],
          is_using_default_value := [] } = Except.ok st := hst
    exact (loop_disabled_spec h2 hw hwt (by decide) (by decide) (by decide)).1
  · have h2 : consolidate_loop ([hexPlugin, base64Plugin, privateKeyPlugin,
        basicAuthPlugin, keywordPlugin] ++ awsKeyPlugin :: [slackPlugin])
        { fields := args, active_plugins := [],
          is_using_default_value := [] } = Except.ok st := hst
    exact (loop_disabled_spec h2 hw hwt (by decide) (by decide) (by decide)).1
  · have h2 : consolidate_loop ([hexPlugin, base64Plugin, privateKeyPlugin,
        basicAuthPlugin, keywordPlugin, awsKeyPlugin] ++ slackPlugin :: [])
        { fields := args, active_plugins := [],
          is_using_default_value := [] } = Except.ok st := hst
    exact (loop_disabled_spec h2 hw hwt (by decide) (by decide) (by decide)).1

/-- Witness for C3: base64 disabled on a realistic scan namespace. -/
theorem claim_C3_witness :
    consolidate_args
      [("no_hex_string_scan", Value.bool false), ("hex_limit", Value.none),
       ("no_base64_string_scan", Value.bool true),
       ("base64_limit", Value.none),
       ("no_private_key_scan", Value.bool false),
       ("no_basic_auth_scan", Value.bool false),
       ("no_keyword_scan", Value.bool false),
       ("no_aws_key_scan", Value.bool false),
       ("no_slack_scan", Value.bool false)] =
      Except.ok { fields := [("base64_limit", Value.none)],
                  plugins := Option.some
                    [("HexHighEntropyString", [("hex_limit", Value.num 3)]),
                     ("PrivateKeyDetector", []),
                     ("BasicAuthDetector", []),
                     ("KeywordDetector", []),
                     ("AWSKeyDetector", []),
                     ("SlackDetector", [])],
                  is_using_default_value :=
                    Option.some [("hex_limit", true)] } ∧
    dictLookup
      [("HexHighEntropyString", [("hex_limit", Value.num 3)]),
       ("PrivateKeyDetector", []),
       ("BasicAuthDetector", []),
       ("KeywordDetector", []),
       ("AWSKeyDetector", []),
       ("SlackDetector", [])] base64Plugin.classname = Option.none :=
  ⟨by rfl,
   claim_C3 base64Plugin (by decide)
     [("no_hex_string_scan", Value.bool false), ("hex_limit", Value.none),
      ("no_base64_string_scan", Value.bool true),
      ("base64_limit", Value.none),
      ("no_private_key_scan", Value.bool false),
      ("no_basic_auth_scan", Value.bool false),
      ("no_keyword_scan", Value.bool false),
      ("no_aws_key_scan", Value.bool false),
      ("no_slack_scan", Value.bool false)]
     { fields := [("base64_limit", Value.none)],
       plugins := Option.some
         [("HexHighEntropyString", [("hex_limit", Value.num 3)]),
          ("PrivateKeyDetector", []),
          ("BasicAuthDetector", []),
          ("KeywordDetector", []),
          ("AWSKeyDetector", []),
          ("SlackDetector", [])],
       is_using_default_value := Option.some [("hex_limit", true)] }
     [("HexHighEntropyString", [("hex_limit", Value.num 3)]),
      ("PrivateKeyDetector", []),
      ("BasicAuthDetector", []),
      ("KeywordDetector", []),
      ("AWSKeyDetector", []),
      ("SlackDetector", [])]
     (Value.bool true) (by rfl) (by rfl) (by rfl) (by rfl)⟩

/-- C1: for every related parameter of a non-disabled descriptor, if its
raw value is `None` (conceptually "not supplied") and the descriptor's
declared default is a non-zero number, then after `consolidate_args` the
consolidated value equals that default and `is_using_default_value` maps
the parameter identifier to true. -/
theorem claim_C1 (p : PluginDescriptor) (hp : p ∈ all_plugins)
    (flag : String) (q : ℚ) (args : Fields) (out : ConsolidatedOutput)
    (ap : List (String × Fields)) (w : Value)
    (hmem : RelatedArg.pair flag (Value.num q) ∈ p.related_args)
    (hq : q ≠ 0)
    (hok : consolidate_args args = Except.ok out)
    (hw : dictLookup args
      (convert_flag_text_to_argument_name p.disable_flag_text) =
      Option.some w)
    (hwf : truthy w = false)
    (hraw : dictLookup args (convert_flag_text_to_argument_name flag) =
      Option.some Value.none)
    (hap : out.plugins = Option.some ap) :
    ∃ params u, dictLookup ap p.classname = Option.some params ∧
      dictLookup params (convert_flag_text_to_argument_name flag) =
        Option.some (Value.num q) ∧
      out.is_using_default_value = Option.some u ∧
      dictLookup u (convert_flag_text_to_argument_name flag) =
        Option.some true := by
  have hok2 : consolidate_args_over all_plugins args = Except.ok out := hok
  have hg := hasKey_of_plugins_some hok2 (by rw [hap]; simp)
  obtain ⟨st, hst, hf, hpl, hu⟩ := consolidate_args_over_ok_inv hok2 hg
  have hap2 : ap = st.active_plugins := by
    rw [hap] at hpl
    exact Option.some.inj hpl
  subst hap2
  fin_cases hp
  · rw [show hexPlugin.related_args =
      [RelatedArg.pair "--hex-limit" (Value.num 3)] from rfl] at hmem
    rw [List.mem_singleton] at hmem
    injection hmem with hflag hd
    injection hd with hd
    subst hflag
    subst hd
    have h2 : consolidate_loop ([] ++ hexPlugin ::
        [base64Plugin, privateKeyPlugin, basicAuthPlugin, keywordPlugin,
         awsKeyPlugin, slackPlugin])
        { fields := args, active_plugins := [],
          is_using_default_value := [] } = Except.ok st := hst
    obtain ⟨v, hv, _, _, hcase⟩ := loop_enabled_single_spec h2 rfl hw hwf
      (by decide) (by decide) (by decide) (by decide) (by decide)
    rw [hraw] at hv
    injection hv with hv
    subst hv
    rcases hcase with ⟨_, hact, hus⟩ | ⟨hc, _, _⟩
    · exact ⟨_, st.is_using_default_value, hact, by rfl, hu, hus⟩
    · exact absurd hc (by decide)
  · rw [show base64Plugin.related_args =
      [RelatedArg.pair "--base64-limit" (Value.num (Rat.mk' 9 2))] from
      rfl] at hmem
    rw [List.mem_singleton] at hmem
    injection hmem with hflag hd
    injection hd with hd
    subst hflag
    subst hd
    have h2 : consolidate_loop ([hexPlugin] ++ base64Plugin ::
        [privateKeyPlugin, basicAuthPlugin, keywordPlugin,
         awsKeyPlugin, slackPlugin])
        { fields := args, active_plugins := [],
          is_using_default_value := [] } = Except.ok st := hst
    obtain ⟨v, hv, _, _, hcase⟩ := loop_enabled_single_spec h2 rfl hw hwf
      (by decide) (by decide) (by decide) (by decide) (by decide)
    rw [hraw] at hv
    injection hv with hv
    subst hv
    rcases hcase with ⟨_, hact, hus⟩ | ⟨hc, _, _⟩
    · exact ⟨_, st.is_using_default_value, hact, by rfl, hu, hus⟩
    · exact absurd hc (by decide)
  · rw [show privateKeyPlugin.related_args = [] from rfl] at hmem
    exact absurd hmem (List.not_mem_nil _)
  · rw [show basicAuthPlugin.related_args = [] from rfl] at hmem
    exact absurd hmem (List.not_mem_nil _)
  · rw [show keywordPlugin.related_args = [] from rfl] at hmem
    exact absurd hmem (List.not_mem_nil _)
  · rw [show awsKeyPlugin.related_args = [] from rfl] at hmem
    exact absurd hmem (List.not_mem_nil _)
  · rw [show slackPlugin.related_args = [] from rfl] at hmem
    exact absurd hmem (List.not_mem_nil _)

/-- Witness for C1: with `hex_limit` absent (None) and the hex disable flag
false, the consolidated `hex_limit` is the default `3.0` and
`is_using_default_value` marks it true. -/
theorem claim_C1_witness :
    consolidate_args
      [("no_hex_string_scan", Value.bool false), ("hex_limit", Value.none),
       ("no_base64_string_scan", Value.bool false),
       ("base64_limit", Value.none),
       ("no_private_key_scan", Value.bool false),
       ("no_basic_auth_scan", Value.bool false),
       ("no_keyword_scan", Value.bool false),
       ("no_aws_key_scan", Value.bool false),
       ("no_slack_scan", Value.bool false)] =
      Except.ok { fields := [],
                  plugins := Option.some
                    [("HexHighEntropyString", [("hex_limit", Value.num 3)]),
                     ("Base64HighEntropyString",
                       [("base64_limit", Value.num (Rat.mk' 9 2))]),
                     ("PrivateKeyDetector", []),
                     ("BasicAuthDetector", []),
                     ("KeywordDetector", []),
                     ("AWSKeyDetector", []),
                     ("SlackDetector", [])],
                  is_using_default_value :=
                    Option.some [("hex_limit", true),
                                 ("base64_limit", true)] } ∧
    (∃ params u, dictLookup
        [("HexHighEntropyString", [("hex_limit", Value.num 3)]),
         ("Base64HighEntropyString",
           [("base64_limit", Value.num (Rat.mk' 9 2))]),
         ("PrivateKeyDetector", []),
         ("BasicAuthDetector", []),
         ("KeywordDetector", []),
         ("AWSKeyDetector", []),
         ("SlackDetector", [])] hexPlugin.classname = Option.some params ∧
      dictLookup params (convert_flag_text_to_argument_name "--hex-limit") =
        Option.some (Value.num 3) ∧
      (ConsolidatedOutput.mk []
        (Option.some
          [("HexHighEntropyString", [("hex_limit", Value.num 3)]),
           ("Base64HighEntropyString",
             [("base64_limit", Value.num (Rat.mk' 9 2))]),
           ("PrivateKeyDetector", []),
           ("BasicAuthDetector", []),
           ("KeywordDetector", []),
           ("AWSKeyDetector", []),
           ("SlackDetector", [])])
        (Option.some [("hex_limit", true), ("base64_limit", true)])
        ).is_using_default_value = Option.some u ∧
      dictLookup u (convert_flag_text_to_argument_name "--hex-limit") =
        Option.some true) :=
  ⟨by rfl,
   claim_C1 hexPlugin (by decide) "--hex-limit" 3
     [("no_hex_string_scan", Value.bool false), ("hex_limit", Value.none),
      ("no_base64_string_scan", Value.bool false),
      ("base64_limit", Value.none),
      ("no_private_key_scan", Value.bool false),
      ("no_basic_auth_scan", Value.bool false),
      ("no_keyword_scan", Value.bool false),
      ("no_aws_key_scan", Value.bool false),
      ("no_slack_scan", Value.bool false)]
     (ConsolidatedOutput.mk []
       (Option.some
         [("HexHighEntropyString", [("hex_limit", Value.num 3)]),
          ("Base64HighEntropyString",
            [("base64_limit", Value.num (Rat.mk' 9 2))]),
          ("PrivateKeyDetector", []),
          ("BasicAuthDetector", []),
          ("KeywordDetector", []),
          ("AWSKeyDetector", []),
          ("SlackDetector", [])])
       (Option.some [("hex_limit", true), ("base64_limit", true)]))
     [("HexHighEntropyString", [("hex_limit", Value.num 3)]),
      ("Base64HighEntropyString",
        [("base64_limit", Value.num (Rat.mk' 9 2))]),
      ("PrivateKeyDetector", []),
      ("BasicAuthDetector", []),
      ("KeywordDetector", []),
      ("AWSKeyDetector", []),
      ("SlackDetector", [])]
     (Value.bool false) (by decide) (by norm_num) (by rfl) (by rfl)
     (by rfl) (by rfl) (by rfl)⟩

/-- C2: for every related parameter whose raw value is present and not
`None` but falsy (e.g. explicitly `0.0`) of a non-disabled descriptor with
a declared default, `consolidate_args` keeps the explicit raw value
unchanged and `is_using_default_value` has no entry (reports false) for
that parameter identifier. -/
theorem claim_C2 (p : PluginDescriptor) (hp : p ∈ all_plugins)
    (flag : String) (d : Value) (args : Fields) (out : ConsolidatedOutput)
    (ap : List (String × Fields)) (w v : Value)
    (hmem : RelatedArg.pair flag d ∈ p.related_args)
    (hok : consolidate_args args = Except.ok out)
    (hw : dictLookup args
      (convert_flag_text_to_argument_name p.disable_flag_text) =
      Option.some w)
    (hwf : truthy w = false)
    (hraw : dictLookup args (convert_flag_text_to_argument_name flag) =
      Option.some v)
    (hvn : v ≠ Value.none)
    (hvf : truthy v = false)
    (hap : out.plugins = Option.some ap) :
    ∃ params u, dictLookup ap p.classname = Option.some params ∧
      dictLookup params (convert_flag_text_to_argument_name flag) =
        Option.some v ∧
      out.is_using_default_value = Option.some u ∧
      dictLookup u (convert_flag_text_to_argument_name flag) =
        Option.none := by
  have hok2 : consolidate_args_over all_plugins args = Except.ok out := hok
  have hg := hasKey_of_plugins_some hok2 (by rw [hap]; simp)
  obtain ⟨st, hst, hf, hpl, hu⟩ := consolidate_args_over_ok_inv hok2 hg
  have hap2 : ap = st.active_plugins := by
    rw [hap] at hpl
    exact Option.some.inj hpl
  subst hap2
  have hbeq : (v == Value.none) = false := by
    simp [hvn]
  fin_cases hp
  · rw [show hexPlugin.related_args =
      [RelatedArg.pair "--hex-limit" (Value.num 3)] from rfl] at hmem
    rw [List.mem_singleton] at hmem
    injection hmem with hflag hd2
    subst hflag
    subst hd2
    have h2 : consolidate_loop ([] ++ hexPlugin ::
        [base64Plugin, privateKeyPlugin, basicAuthPlugin, keywordPlugin,
         awsKeyPlugin, slackPlugin])
        { fields := args, active_plugins := [],
          is_using_default_value := [] } = Except.ok st := hst
    obtain ⟨v2, hv2, _, _, hcase⟩ := loop_enabled_single_spec h2 rfl hw hwf
      (by decide) (by decide) (by decide) (by decide) (by decide)
    rw [hraw] at hv2
    injection hv2 with hv2
    subst hv2
    rcases hcase with ⟨hc, _, _⟩ | ⟨_, hact, hus⟩
    · rw [hbeq, Bool.and_false] at hc
      exact absurd hc (by simp)
    · refine ⟨_, st.is_using_default_value, hact, ?_, hu, hus⟩
      simp [dictLookup_cons]
  · rw [show base64Plugin.related_args =
      [RelatedArg.pair "--base64-limit" (Value.num (Rat.mk' 9 2))] from
      rfl] at hmem
    rw [List.mem_singleton] at hmem
    injection hmem with hflag hd2
    subst hflag
    subst hd2
    have h2 : consolidate_loop ([hexPlugin] ++ base64Plugin ::
        [privateKeyPlugin, basicAuthPlugin, keywordPlugin,
         awsKeyPlugin, slackPlugin])
        { fields := args, active_plugins := [],
          is_using_default_value := [] } = Except.ok st := hst
    obtain ⟨v2, hv2, _, _, hcase⟩ := loop_enabled_single_spec h2 rfl hw hwf
      (by decide) (by decide) (by decide) (by decide) (by decide)
    rw [hraw] at hv2
    injection hv2 with hv2
    subst hv2
    rcases hcase with ⟨hc, _, _⟩ | ⟨_, hact, hus⟩
    · rw [hbeq, Bool.and_false] at hc
      exact absurd hc (by simp)
    · refine ⟨_, st.is_using_default_value, hact, ?_, hu, hus⟩
      simp [dictLookup_cons]
  · rw [show privateKeyPlugin.related_args = [] from rfl] at hmem
    exact absurd hmem (List.not_mem_nil _)
  · rw [show basicAuthPlugin.related_args = [] from rfl] at hmem
    exact absurd hmem (List.not_mem_nil _)
  · rw [show keywordPlugin.related_args = [] from rfl] at hmem
    exact absurd hmem (List.not_mem_nil _)
  · rw [show awsKeyPlugin.related_args = [] from rfl] at hmem
    exact absurd hmem (List.not_mem_nil _)
  · rw [show slackPlugin.related_args = [] from rfl] at hmem
    exact absurd hmem (List.not_mem_nil _)

/-- Witness for C2: `hex_limit` explicitly `0.0` with the disable flag
false stays `0.0` and is not marked as defaulted. -/
theorem claim_C2_witness :
    consolidate_args
      [("no_hex_string_scan", Value.bool false),
       ("hex_limit", Value.num 0),
       ("no_base64_string_scan", Value.bool false),
       ("base64_limit", Value.none),
       ("no_private_key_scan", Value.bool false),
       ("no_basic_auth_scan", Value.bool false),
       ("no_keyword_scan", Value.bool false),
       ("no_aws_key_scan", Value.bool false),
       ("no_slack_scan", Value.bool false)] =
      Except.ok { fields := [],
                  plugins := Option.some
                    [("HexHighEntropyString", [("hex_limit", Value.num 0)]),
                     ("Base64HighEntropyString",
                       [("base64_limit", Value.num (Rat.mk' 9 2))]),
                     ("PrivateKeyDetector", []),
                     ("BasicAuthDetector", []),
                     ("KeywordDetector", []),
                     ("AWSKeyDetector", []),
                     ("SlackDetector", [])],
                  is_using_default_value :=
                    Option.some [("base64_limit", true)] } ∧
    (∃ params u, dictLookup
        [("HexHighEntropyString", [("hex_limit", Value.num 0)]),
         ("Base64HighEntropyString",
           [("base64_limit", Value.num (Rat.mk' 9 2))]),
         ("PrivateKeyDetector", []),
         ("BasicAuthDetector", []),
         ("KeywordDetector", []),
         ("AWSKeyDetector", []),
         ("SlackDetector", [])] hexPlugin.classname = Option.some params ∧
      dictLookup params (convert_flag_text_to_argument_name "--hex-limit") =
        Option.some (Value.num 0) ∧
      (ConsolidatedOutput.mk []
        (Option.some
          [("HexHighEntropyString", [("hex_limit", Value.num 0)]),
           ("Base64HighEntropyString",
             [("base64_limit", Value.num (Rat.mk' 9 2))]),
           ("PrivateKeyDetector", []),
           ("BasicAuthDetector", []),
           ("KeywordDetector", []),
           ("AWSKeyDetector", []),
           ("SlackDetector", [])])
        (Option.some [("base64_limit", true)])
        ).is_using_default_value = Option.some u ∧
      dictLookup u (convert_flag_text_to_argument_name "--hex-limit") =
        Option.none) :=
  ⟨by rfl,
   claim_C2 hexPlugin (by decide) "--hex-limit" (Value.num 3)
     [("no_hex_string_scan", Value.bool false),
      ("hex_limit", Value.num 0),
      ("no_base64_string_scan", Value.bool false),
      ("base64_limit", Value.none),
      ("no_private_key_scan", Value.bool false),
      ("no_basic_auth_scan", Value.bool false),
      ("no_keyword_scan", Value.bool false),
      ("no_aws_key_scan", Value.bool false),
      ("no_slack_scan", Value.bool false)]
     (ConsolidatedOutput.mk []
       (Option.some
         [("HexHighEntropyString", [("hex_limit", Value.num 0)]),
          ("Base64HighEntropyString",
            [("base64_limit", Value.num (Rat.mk' 9 2))]),
          ("PrivateKeyDetector", []),
          ("BasicAuthDetector", []),
          ("KeywordDetector", []),
          ("AWSKeyDetector", []),
          ("SlackDetector", [])])
       (Option.some [("base64_limit", true)]))
     [("HexHighEntropyString", [("hex_limit", Value.num 0)]),
      ("Base64HighEntropyString",
        [("base64_limit", Value.num (Rat.mk' 9 2))]),
      ("PrivateKeyDetector", []),
      ("BasicAuthDetector", []),
      ("KeywordDetector", []),
      ("AWSKeyDetector", []),
      ("SlackDetector", [])]
     (Value.bool false) (Value.num 0) (by decide) (by rfl) (by rfl)
     (by rfl) (by rfl) (by decide) (by rfl) (by rfl)⟩

/-- C4: for every descriptor in `all_plugins` whose disable flag is falsy,
after `consolidate_args` its classname is a key of the attached `plugins`
mapping whose value contains every declared related-parameter identifier;
a parameterless descriptor still appears, mapped to the empty parameter
map. -/
theorem claim_C4 (p : PluginDescriptor) (hp : p ∈ all_plugins)
    (args : Fields) (out : ConsolidatedOutput)
    (ap : List (String × Fields)) (w : Value)
    (hok : consolidate_args args = Except.ok out)
    (hw : dictLookup args
      (convert_flag_text_to_argument_name p.disable_flag_text) =
      Option.some w)
    (hwf : truthy w = false)
    (hap : out.plugins = Option.some ap) :
    ∃ params, dictLookup ap p.classname = Option.some params ∧
      (∀ ra ∈ p.related_args,
        (dictLookup params
          (convert_flag_text_to_argument_name ra.flagText)).isSome =
          true) ∧
      (p.related_args = [] → params = []) := by
  have hok2 : consolidate_args_over all_plugins args = Except.ok out := hok
  have hg := hasKey_of_plugins_some hok2 (by rw [hap]; simp)
  obtain ⟨st, hst, hf, hpl, hu⟩ := consolidate_args_over_ok_inv hok2 hg
  have hap2 : ap = st.active_plugins := by
    rw [hap] at hpl
    exact Option.some.inj hpl
  subst hap2
  fin_cases hp
  · have h2 : consolidate_loop ([] ++ hexPlugin ::
        [base64Plugin, privateKeyPlugin, basicAuthPlugin, keywordPlugin,
         awsKeyPlugin, slackPlugin])
        { fields := args, active_plugins := [],
          is_using_default_value := [] } = Except.ok st := hst
    obtain ⟨v, hv, _, _, hcase⟩ := loop_enabled_single_spec h2 rfl hw hwf
      (by decide) (by decide) (by decide) (by decide) (by decide)
    rcases hcase with ⟨_, hact, _⟩ | ⟨_, hact, _⟩
    · refine ⟨_, hact, ?_, ?_⟩
      · intro ra hra
        rw [show hexPlugin.related_args =
          [RelatedArg.pair "--hex-limit" (Value.num 3)] from rfl] at hra
        have hra2 := List.mem_singleton.mp hra
        subst hra2
        simp [RelatedArg.flagText, dictLookup_cons]
      · intro habs
        exact absurd habs (by decide)
    · refine ⟨_, hact, ?_, ?_⟩
      · intro ra hra
        rw [show hexPlugin.related_args =
          [RelatedArg.pair "--hex-limit" (Value.num 3)] from rfl] at hra
        have hra2 := List.mem_singleton.mp hra
        subst hra2
        simp [RelatedArg.flagText, dictLookup_cons]
      · intro habs
        exact absurd habs (by decide)
  · have h2 : consolidate_loop ([hexPlugin] ++ base64Plugin ::
        [privateKeyPlugin, basicAuthPlugin, keywordPlugin,
         awsKeyPlugin, slackPlugin])
        { fields := args, active_plugins := [],
          is_using_default_value := [] } = Except.ok st := hst
    obtain ⟨v, hv, _, _, hcase⟩ := loop_enabled_single_spec h2 rfl hw hwf
      (by decide) (by decide) (by decide) (by decide) (by decide)
    rcases hcase with ⟨_, hact, _⟩ | ⟨_, hact, _⟩
    · refine ⟨_, hact, ?_, ?_⟩
      · intro ra hra
        rw [show base64Plugin.related_args =
          [RelatedArg.pair "--base64-limit" (Value.num (Rat.mk' 9 2))] from
          rfl] at hra
        have hra2 := List.mem_singleton.mp hra
        subst hra2
        simp [RelatedArg.flagText, dictLookup_cons]
      · intro habs
        exact absurd habs (by decide)
    · refine ⟨_, hact, ?_, ?_⟩
      · intro ra hra
        rw [show base64Plugin.related_args =
          [RelatedArg.pair "--base64-limit" (Value.num (Rat.mk' 9 2))] from
          rfl] at hra
        have hra2 := List.mem_singleton.mp hra
        subst hra2
        simp [RelatedArg.flagText, dictLookup_cons]
      · intro habs
        exact absurd habs (by decide)
  · have h2 : consolidate_loop ([hexPlugin, base64Plugin] ++
        privateKeyPlugin ::
        [basicAuthPlugin, keywordPlugin, awsKeyPlugin, slackPlugin])
        { fields := args, active_plugins := [],
          is_using_default_value := [] } = Except.ok st := hst
    obtain ⟨hact, _⟩ := loop_enabled_paramless_spec h2 rfl hw hwf
      (by decide) (by decide)
    refine ⟨[], hact, ?_, fun _ => rfl⟩
    intro ra hra
    rw [show privateKeyPlugin.related_args = [] from rfl] at hra
    exact absurd hra (List.not_mem_nil _)
  · have h2 : consolidate_loop ([hexPlugin, base64Plugin,
        privateKeyPlugin] ++ basicAuthPlugin ::
        [keywordPlugin, awsKeyPlugin, slackPlugin])
        { fields := args, active_plugins := [],
          is_using_default_value := [] } = Except.ok st := hst
    obtain ⟨hact, _⟩ := loop_enabled_paramless_spec h2 rfl hw hwf
      (by decide) (by decide)
    refine ⟨[], hact, ?_, fun _ => rfl⟩
    intro ra hra
    rw [show basicAuthPlugin.related_args = [] from rfl] at hra
    exact absurd hra (List.not_mem_nil _)
  · have h2 : consolidate_loop ([hexPlugin, base64Plugin, privateKeyPlugin,
        basicAuthPlugin] ++ keywordPlugin :: [awsKeyPlugin, slackPlugin])
        { fields := args, active_plugins := [],
          is_using_default_value := [] } = Except.ok st := hst
    obtain ⟨hact, _⟩ := loop_enabled_paramless_spec h2 rfl hw hwf
      (by decide) (by decide)
    refine ⟨[], hact, ?_, fun _ => rfl⟩
    intro ra hra
    rw [show keywordPlugin.related_args = [] from rfl] at hra
    exact absurd hra (List.not_mem_nil _)
  · have h2 : consolidate_loop ([hexPlugin, base64Plugin, privateKeyPlugin,
        basicAuthPlugin, keywordPlugin] ++ awsKeyPlugin :: [slackPlugin])
        { fields := args, active_plugins := [],
          is_using_default_value := [] } = Except.ok st := hst
    obtain ⟨hact, _⟩ := loop_enabled_paramless_spec h2 rfl hw hwf
      (by decide) (by decide)
    refine ⟨[], hact, ?_, fun _ => rfl⟩
    intro ra hra
    rw [show awsKeyPlugin.related_args = [] from rfl] at hra
    exact absurd hra (List.not_mem_nil _)
  · have h2 : consolidate_loop ([hexPlugin, base64Plugin, privateKeyPlugin,
        basicAuthPlugin, keywordPlugin, awsKeyPlugin] ++ slackPlugin :: [])
        { fields := args, active_plugins := [],
          is_using_default_value := [] } = Except.ok st := hst
    obtain ⟨hact, _⟩ := loop_enabled_paramless_spec h2 rfl hw hwf
      (by decide) (by decide)
    refine ⟨[], hact, ?_, fun _ => rfl⟩
    intro ra hra
    rw [show slackPlugin.related_args = [] from rfl] at hra
    exact absurd hra (List.not_mem_nil _)

/-- Witness for C4: the parameterless `PrivateKeyDetector` appears in the
output with an empty parameter map. -/
theorem claim_C4_witness :
    consolidate_args
      [("no_hex_string_scan", Value.bool false), ("hex_limit", Value.none),
       ("no_base64_string_scan", Value.bool false),
       ("base64_limit", Value.none),
       ("no_private_key_scan", Value.bool false),
       ("no_basic_auth_scan", Value.bool false),
       ("no_keyword_scan", Value.bool false),
       ("no_aws_key_scan", Value.bool false),
       ("no_slack_scan", Value.bool false)] =
      Except.ok { fields := [],
                  plugins := Option.some
                    [("HexHighEntropyString", [("hex_limit", Value.num 3)]),
                     ("Base64HighEntropyString",
                       [("base64_limit", Value.num (Rat.mk' 9 2))]),
                     ("PrivateKeyDetector", []),
                     ("BasicAuthDetector", []),
                     ("KeywordDetector", []),
                     ("AWSKeyDetector", []),
                     ("SlackDetector", [])],
                  is_using_default_value :=
                    Option.some [("hex_limit", true),
                                 ("base64_limit", true)] } ∧
    (∃ params, dictLookup
        [("HexHighEntropyString", [("hex_limit", Value.num 3)]),
         ("Base64HighEntropyString",
           [("base64_limit", Value.num (Rat.mk' 9 2))]),
         ("PrivateKeyDetector", []),
         ("BasicAuthDetector", []),
         ("KeywordDetector", []),
         ("AWSKeyDetector", []),
         ("SlackDetector", [])] privateKeyPlugin.classname =
        Option.some params ∧
      (∀ ra ∈ privateKeyPlugin.related_args,
        (dictLookup params
          (convert_flag_text_to_argument_name ra.flagText)).isSome =
          true) ∧
      (privateKeyPlugin.related_args = [] → params = [])) :=
  ⟨by rfl,
   claim_C4 privateKeyPlugin (by decide)
     [("no_hex_string_scan", Value.bool false), ("hex_limit", Value.none),
      ("no_base64_string_scan", Value.bool false),
      ("base64_limit", Value.none),
      ("no_private_key_scan", Value.bool false),
      ("no_basic_auth_scan", Value.bool false),
      ("no_keyword_scan", Value.bool false),
      ("no_aws_key_scan", Value.bool false),
      ("no_slack_scan", Value.bool false)]
     (ConsolidatedOutput.mk []
       (Option.some
         [("HexHighEntropyString", [("hex_limit", Value.num 3)]),
          ("Base64HighEntropyString",
            [("base64_limit", Value.num (Rat.mk' 9 2))]),
          ("PrivateKeyDetector", []),
          ("BasicAuthDetector", []),
          ("KeywordDetector", []),
          ("AWSKeyDetector", []),
          ("SlackDetector", [])])
       (Option.some [("hex_limit", true), ("base64_limit", true)]))
     [("HexHighEntropyString", [("hex_limit", Value.num 3)]),
      ("Base64HighEntropyString",
        [("base64_limit", Value.num (Rat.mk' 9 2))]),
      ("PrivateKeyDetector", []),
      ("BasicAuthDetector", []),
      ("KeywordDetector", []),
      ("AWSKeyDetector", []),
      ("SlackDetector", [])]
     (Value.bool false) (by rfl) (by rfl) (by rfl) (by rfl)⟩

/-- C9: when consolidation runs (hex-limit identifier present),
`consolidate_args` removes exactly the fields it consumes: for every
non-disabled descriptor, its disable-flag identifier and each of its
related-param identifiers are absent from the output attribute map, while
every field not named by any catalog descriptor is unchanged. -/
theorem claim_C9 (args : Fields) (out : ConsolidatedOutput)
    (hok : consolidate_args args = Except.ok out)
    (hg : hasKey args "hex_limit" = true) :
    (∀ p ∈ all_plugins, ∀ w,
      dictLookup args
        (convert_flag_text_to_argument_name p.disable_flag_text) =
        Option.some w →
      truthy w = false →
      dictLookup out.fields
        (convert_flag_text_to_argument_name p.disable_flag_text) =
        Option.none ∧
      ∀ ra ∈ p.related_args,
        dictLookup out.fields
          (convert_flag_text_to_argument_name ra.flagText) =
          Option.none) ∧
    (∀ k, (∀ p ∈ all_plugins, ¬ k ∈ consumedNames p) →
      dictLookup out.fields k = dictLookup args k) := by
  have hok2 : consolidate_args_over all_plugins args = Except.ok out := hok
  obtain ⟨st, hst, hf, hpl, hu⟩ := consolidate_args_over_ok_inv hok2 hg
  constructor
  · intro p hp w hw hwf
    fin_cases hp
    · have h2 : consolidate_loop ([] ++ hexPlugin ::
          [base64Plugin, privateKeyPlugin, basicAuthPlugin, keywordPlugin,
           awsKeyPlugin, slackPlugin])
          { fields := args, active_plugins := [],
            is_using_default_value := [] } = Except.ok st := hst
      obtain ⟨v, hv, hnd, hna, _⟩ := loop_enabled_single_spec h2 rfl hw hwf
        (by decide) (by decide) (by decide) (by decide) (by decide)
      refine ⟨by rw [hf]; exact hnd, ?_⟩
      intro ra hra
      rw [show hexPlugin.related_args =
        [RelatedArg.pair "--hex-limit" (Value.num 3)] from rfl] at hra
      have hra2 := List.mem_singleton.mp hra
      subst hra2
      rw [hf]
      exact hna
    · have h2 : consolidate_loop ([hexPlugin] ++ base64Plugin ::
          [privateKeyPlugin, basicAuthPlugin, keywordPlugin,
           awsKeyPlugin, slackPlugin])
          { fields := args, active_plugins := [],
            is_using_default_value := [] } = Except.ok st := hst
      obtain ⟨v, hv, hnd, hna, _⟩ := loop_enabled_single_spec h2 rfl hw hwf
        (by decide) (by decide) (by decide) (by decide) (by decide)
      refine ⟨by rw [hf]; exact hnd, ?_⟩
      intro ra hra
      rw [show base64Plugin.related_args =
        [RelatedArg.pair "--base64-limit" (Value.num (Rat.mk' 9 2))] from
        rfl] at hra
      have hra2 := List.mem_singleton.mp hra
      subst hra2
      rw [hf]
      exact hna
    · have h2 : consolidate_loop ([hexPlugin, base64Plugin] ++
          privateKeyPlugin ::
          [basicAuthPlugin, keywordPlugin, awsKeyPlugin, slackPlugin])
          { fields := args, active_plugins := [],
            is_using_default_value := [] } = Except.ok st := hst
      obtain ⟨_, hnd⟩ := loop_enabled_paramless_spec h2 rfl hw hwf
        (by decide) (by decide)
      refine ⟨by rw [hf]; exact hnd, ?_⟩
      intro ra hra
      rw [show privateKeyPlugin.related_args = [] from rfl] at hra
      exact absurd hra (List.not_mem_nil _)
    · have h2 : consolidate_loop ([hexPlugin, base64Plugin,
          privateKeyPlugin] ++ basicAuthPlugin ::
          [keywordPlugin, awsKeyPlugin, slackPlugin])
          { fields := args, active_plugins := [],
            is_using_default_value := [] } = Except.ok st := hst
      obtain ⟨_, hnd⟩ := loop_enabled_paramless_spec h2 rfl hw hwf
        (by decide) (by decide)
      refine ⟨by rw [hf]; exact hnd, ?_⟩
      intro ra hra
      rw [show basicAuthPlugin.related_args = [] from rfl] at hra
      exact absurd hra (List.not_mem_nil _)
    · have h2 : consolidate_loop ([hexPlugin, base64Plugin,
          privateKeyPlugin, basicAuthPlugin] ++ keywordPlugin ::
          [awsKeyPlugin, slackPlugin])
          { fields := args, active_plugins := [],
            is_using_default_value := [] } = Except.ok st := hst
      obtain ⟨_, hnd⟩ := loop_enabled_paramless_spec h2 rfl hw hwf
        (by decide) (by decide)
      refine ⟨by rw [hf]; exact hnd, ?_⟩
      intro ra hra
      rw [show keywordPlugin.related_args = [] from rfl] at hra
      exact absurd hra (List.not_mem_nil _)
    · have h2 : consolidate_loop ([hexPlugin, base64Plugin,
          privateKeyPlugin, basicAuthPlugin, keywordPlugin] ++
          awsKeyPlugin :: [slackPlugin])
          { fields := args, active_plugins := [],
            is_using_default_value := [] } = Except.ok st := hst
      obtain ⟨_, hnd⟩ := loop_enabled_paramless_spec h2 rfl hw hwf
        (by decide) (by decide)
      refine ⟨by rw [hf]; exact hnd, ?_⟩
      intro ra hra
      rw [show awsKeyPlugin.related_args = [] from rfl] at hra
      exact absurd hra (List.not_mem_nil _)
    · have h2 : consolidate_loop ([hexPlugin, base64Plugin,
          privateKeyPlugin, basicAuthPlugin, keywordPlugin,
          awsKeyPlugin] ++ slackPlugin :: [])
          { fields := args, active_plugins := [],
            is_using_default_value := [] } = Except.ok st := hst
      obtain ⟨_, hnd⟩ := loop_enabled_paramless_spec h2 rfl hw hwf
        (by decide) (by decide)
      refine ⟨by rw [hf]; exact hnd, ?_⟩
      intro ra hra
      rw [show slackPlugin.related_args = [] from rfl] at hra
      exact absurd hra (List.not_mem_nil _)
  · intro k hk
    rw [hf]
    have h3 : dictLookup st.fields k = dictLookup args k :=
      consolidate_loop_fields_frame hst k hk
    exact h3

/-- Witness for C9 on a realistic scan namespace carrying an extra
`verbose` field not named by any descriptor. -/
theorem claim_C9_witness :
    consolidate_args
      [("no_hex_string_scan", Value.bool false), ("hex_limit", Value.none),
       ("no_base64_string_scan", Value.bool false),
       ("base64_limit", Value.none),
       ("no_private_key_scan", Value.bool false),
       ("no_basic_auth_scan", Value.bool false),
       ("no_keyword_scan", Value.bool false),
       ("no_aws_key_scan", Value.bool false),
       ("no_slack_scan", Value.bool false),
       ("verbose", Value.num 2)] =
      Except.ok { fields := [("verbose", Value.num 2)],
                  plugins := Option.some
                    [("HexHighEntropyString", [("hex_limit", Value.num 3)]),
                     ("Base64HighEntropyString",
                       [("base64_limit", Value.num (Rat.mk' 9 2))]),
                     ("PrivateKeyDetector", []),
                     ("BasicAuthDetector", []),
                     ("KeywordDetector", []),
                     ("AWSKeyDetector", []),
                     ("SlackDetector", [])],
                  is_using_default_value :=
                    Option.some [("hex_limit", true),
                                 ("base64_limit", true)] } ∧
    ((∀ p ∈ all_plugins, ∀ w,
      dictLookup
        [("no_hex_string_scan", Value.bool false),
         ("hex_limit", Value.none),
         ("no_base64_string_scan", Value.bool false),
         ("base64_limit", Value.none),
         ("no_private_key_scan", Value.bool false),
         ("no_basic_auth_scan", Value.bool false),
         ("no_keyword_scan", Value.bool false),
         ("no_aws_key_scan", Value.bool false),
         ("no_slack_scan", Value.bool false),
         ("verbose", Value.num 2)]
        (convert_flag_text_to_argument_name p.disable_flag_text) =
        Option.some w →
      truthy w = false →
      dictLookup (ConsolidatedOutput.mk [("verbose", Value.num 2)]
          (Option.some
            [("HexHighEntropyString", [("hex_limit", Value.num 3)]),
             ("Base64HighEntropyString",
               [("base64_limit", Value.num (Rat.mk' 9 2))]),
             ("PrivateKeyDetector", []),
             ("BasicAuthDetector", []),
             ("KeywordDetector", []),
             ("AWSKeyDetector", []),
             ("SlackDetector", [])])
          (Option.some [("hex_limit", true), ("base64_limit", true)])).fields
        (convert_flag_text_to_argument_name p.disable_flag_text) =
        Option.none ∧
      ∀ ra ∈ p.related_args,
        dictLookup (ConsolidatedOutput.mk [("verbose", Value.num 2)]
          (Option.some
            [("HexHighEntropyString", [("hex_limit", Value.num 3)]),
             ("Base64HighEntropyString",
               [("base64_limit", Value.num (Rat.mk' 9 2))]),
             ("PrivateKeyDetector", []),
             ("BasicAuthDetector", []),
             ("KeywordDetector", []),
             ("AWSKeyDetector", []),
             ("SlackDetector", [])])
          (Option.some [("hex_limit", true), ("base64_limit", true)])).fields
          (convert_flag_text_to_argument_name ra.flagText) =
          Option.none) ∧
     (∀ k, (∀ p ∈ all_plugins, ¬ k ∈ consumedNames p) →
      dictLookup (ConsolidatedOutput.mk [("verbose", Value.num 2)]
          (Option.some
            [("HexHighEntropyString", [("hex_limit", Value.num 3)]),
             ("Base64HighEntropyString",
               [("base64_limit", Value.num (Rat.mk' 9 2))]),
             ("PrivateKeyDetector", []),
             ("BasicAuthDetector", []),
             ("KeywordDetector", []),
             ("AWSKeyDetector", []),
             ("SlackDetector", [])])
          (Option.some [("hex_limit", true), ("base64_limit", true)])).fields
        k =
      dictLookup
        [("no_hex_string_scan", Value.bool false),
         ("hex_limit", Value.none),
         ("no_base64_string_scan", Value.bool false),
         ("base64_limit", Value.none),
         ("no_private_key_scan", Value.bool false),
         ("no_basic_auth_scan", Value.bool false),
         ("no_keyword_scan", Value.bool false),
         ("no_aws_key_scan", Value.bool false),
         ("no_slack_scan", Value.bool false),
         ("verbose", Value.num 2)] k)) :=
  ⟨by rfl,
   claim_C9
     [("no_hex_string_scan", Value.bool false), ("hex_limit", Value.none),
      ("no_base64_string_scan", Value.bool false),
      ("base64_limit", Value.none),
      ("no_private_key_scan", Value.bool false),
      ("no_basic_auth_scan", Value.bool false),
      ("no_keyword_scan", Value.bool false),
      ("no_aws_key_scan", Value.bool false),
      ("no_slack_scan", Value.bool false),
      ("verbose", Value.num 2)]
     (ConsolidatedOutput.mk [("verbose", Value.num 2)]
       (Option.some
         [("HexHighEntropyString", [("hex_limit", Value.num 3)]),
          ("Base64HighEntropyString",
            [("base64_limit", Value.num (Rat.mk' 9 2))]),
          ("PrivateKeyDetector", []),
          ("BasicAuthDetector", []),
          ("KeywordDetector", []),
          ("AWSKeyDetector", []),
          ("SlackDetector", [])])
       (Option.some [("hex_limit", true), ("base64_limit", true)]))
     (by rfl) (by rfl)⟩

/-- C10: for every descriptor whose disable flag is set truthy in the raw
input, `consolidate_args` leaves the descriptor's related-param identifiers
in the raw attribute map with their original values, and adds no entry for
those parameters to `is_using_default_value`. -/
theorem claim_C10 (p : PluginDescriptor) (hp : p ∈ all_plugins)
    (args : Fields) (out : ConsolidatedOutput) (w : Value)
    (hok : consolidate_args args = Except.ok out)
    (hw : dictLookup args
      (convert_flag_text_to_argument_name p.disable_flag_text) =
      Option.some w)
    (hwt : truthy w = true) :
    (∀ ra ∈ p.related_args,
      dictLookup out.fields
        (convert_flag_text_to_argument_name ra.flagText) =
      dictLookup args (convert_flag_text_to_argument_name ra.flagText)) ∧
    (∀ ra ∈ p.related_args, ∀ u,
      out.is_using_default_value = Option.some u →
      dictLookup u (convert_flag_text_to_argument_name ra.flagText) =
        Option.none) := by
  have hok2 : consolidate_args_over all_plugins args = Except.ok out := hok
  cases hg : hasKey args "hex_limit" with
  | false =>
      rw [consolidate_args_over_guard hg] at hok2
      injection hok2 with h2
      subst h2
      constructor
      · intro ra hra
        rfl
      · intro ra hra u habs
        exact absurd habs (by simp)
  | true =>
      obtain ⟨st, hst, hf, hpl, hu⟩ := consolidate_args_over_ok_inv hok2 hg
      fin_cases hp
      · have h2 : consolidate_loop ([] ++ hexPlugin ::
            [base64Plugin, privateKeyPlugin, basicAuthPlugin, keywordPlugin,
             awsKeyPlugin, slackPlugin])
            { fields := args, active_plugins := [],
              is_using_default_value := [] } = Except.ok st := hst
        have hspec : dictLookup st.fields
              (convert_flag_text_to_argument_name "--hex-limit") =
              dictLookup args
                (convert_flag_text_to_argument_name "--hex-limit") ∧
            dictLookup st.is_using_default_value
              (convert_flag_text_to_argument_name "--hex-limit") =
              Option.none :=
          loop_disabled_frame_spec h2 hw hwt (by decide) (by decide)
            (by decide) (by decide)
        constructor
        · intro ra hra
          rw [show hexPlugin.related_args =
            [RelatedArg.pair "--hex-limit" (Value.num 3)] from rfl] at hra
          have hra2 := List.mem_singleton.mp hra
          subst hra2
          rw [hf]
          exact hspec.1
        · intro ra hra u habs
          rw [show hexPlugin.related_args =
            [RelatedArg.pair "--hex-limit" (Value.num 3)] from rfl] at hra
          have hra2 := List.mem_singleton.mp hra
          subst hra2
          rw [hu] at habs
          injection habs with habs
          subst habs
          exact hspec.2
      · have h2 : consolidate_loop ([hexPlugin] ++ base64Plugin ::
            [privateKeyPlugin, basicAuthPlugin, keywordPlugin,
             awsKeyPlugin, slackPlugin])
            { fields := args, active_plugins := [],
              is_using_default_value := [] } = Except.ok st := hst
        have hspec : dictLookup st.fields
              (convert_flag_text_to_argument_name "--base64-limit") =
              dictLookup args
                (convert_flag_text_to_argument_name "--base64-limit") ∧
            dictLookup st.is_using_default_value
              (convert_flag_text_to_argument_name "--base64-limit") =
              Option.none :=
          loop_disabled_frame_spec h2 hw hwt (by decide) (by decide)
            (by decide) (by decide)
        constructor
        · intro ra hra
          rw [show base64Plugin.related_args =
            [RelatedArg.pair "--base64-limit" (Value.num (Rat.mk' 9 2))]
            from rfl] at hra
          have hra2 := List.mem_singleton.mp hra
          subst hra2
          rw [hf]
          exact hspec.1
        · intro ra hra u habs
          rw [show base64Plugin.related_args =
            [RelatedArg.pair "--base64-limit" (Value.num (Rat.mk' 9 2))]
            from rfl] at hra
          have hra2 := List.mem_singleton.mp hra
          subst hra2
          rw [hu] at habs
          injection habs with habs
          subst habs
          exact hspec.2
      · constructor <;>
          (intro ra hra
           rw [show privateKeyPlugin.related_args = [] from rfl] at hra
           exact absurd hra (List.not_mem_nil _))
      · constructor <;>
          (intro ra hra
           rw [show basicAuthPlugin.related_args = [] from rfl] at hra
           exact absurd hra (List.not_mem_nil _))
      · constructor <;>
          (intro ra hra
           rw [show keywordPlugin.related_args = [] from rfl] at hra
           exact absurd hra (List.not_mem_nil _))
      · constructor <;>
          (intro ra hra
           rw [show awsKeyPlugin.related_args = [] from rfl] at hra
           exact absurd hra (List.not_mem_nil _))
      · constructor <;>
          (intro ra hra
           rw [show slackPlugin.related_args = [] from rfl] at hra
           exact absurd hra (List.not_mem_nil _))

/-- Witness for C10: with base64 disabled, `base64_limit` keeps its raw
value `None` in the attribute map and is not marked as defaulted. -/
theorem claim_C10_witness :
    consolidate_args
      [("no_hex_string_scan", Value.bool false), ("hex_limit", Value.none),
       ("no_base64_string_scan", Value.bool true),
       ("base64_limit", Value.none),
       ("no_private_key_scan", Value.bool false),
       ("no_basic_auth_scan", Value.bool false),
       ("no_keyword_scan", Value.bool false),
       ("no_aws_key_scan", Value.bool false),
       ("no_slack_scan", Value.bool false)] =
      Except.ok { fields := [("base64_limit", Value.none)],
                  plugins := Option.some
                    [("HexHighEntropyString", [("hex_limit", Value.num 3)]),
                     ("PrivateKeyDetector", []),
                     ("BasicAuthDetector", []),
                     ("KeywordDetector", []),
                     ("AWSKeyDetector", []),
                     ("SlackDetector", [])],
                  is_using_default_value :=
                    Option.some [("hex_limit", true)] } ∧
    ((∀ ra ∈ base64Plugin.related_args,
      dictLookup (ConsolidatedOutput.mk [("base64_limit", Value.none)]
          (Option.some
            [("HexHighEntropyString", [("hex_limit", Value.num 3)]),
             ("PrivateKeyDetector", []),
             ("BasicAuthDetector", []),
             ("KeywordDetector", []),
             ("AWSKeyDetector", []),
             ("SlackDetector", [])])
          (Option.some [("hex_limit", true)])).fields
        (convert_flag_text_to_argument_name ra.flagText) =
      dictLookup
        [("no_hex_string_scan", Value.bool false),
         ("hex_limit", Value.none),
         ("no_base64_string_scan", Value.bool true),
         ("base64_limit", Value.none),
         ("no_private_key_scan", Value.bool false),
         ("no_basic_auth_scan", Value.bool false),
         ("no_keyword_scan", Value.bool false),
         ("no_aws_key_scan", Value.bool false),
         ("no_slack_scan", Value.bool false)]
        (convert_flag_text_to_argument_name ra.flagText)) ∧
     (∀ ra ∈ base64Plugin.related_args, ∀ u,
      (ConsolidatedOutput.mk [("base64_limit", Value.none)]
          (Option.some
            [("HexHighEntropyString", [("hex_limit", Value.num 3)]),
             ("PrivateKeyDetector", []),
             ("BasicAuthDetector", []),
             ("KeywordDetector", []),
             ("AWSKeyDetector", []),
             ("SlackDetector", [])])
          (Option.some [("hex_limit", true)])).is_using_default_value =
        Option.some u →
      dictLookup u (convert_flag_text_to_argument_name ra.flagText) =
        Option.none)) :=
  ⟨by rfl,
   claim_C10 base64Plugin (by decide)
     [("no_hex_string_scan", Value.bool false), ("hex_limit", Value.none),
      ("no_base64_string_scan", Value.bool true),
      ("base64_limit", Value.none),
      ("no_private_key_scan", Value.bool false),
      ("no_basic_auth_scan", Value.bool false),
      ("no_keyword_scan", Value.bool false),
      ("no_aws_key_scan", Value.bool false),
      ("no_slack_scan", Value.bool false)]
     (ConsolidatedOutput.mk [("base64_limit", Value.none)]
       (Option.some
         [("HexHighEntropyString", [("hex_limit", Value.num 3)]),
          ("PrivateKeyDetector", []),
          ("BasicAuthDetector", []),
          ("KeywordDetector", []),
          ("AWSKeyDetector", []),
          ("SlackDetector", [])])
       (Option.some [("hex_limit", true)]))
     (Value.bool true) (by rfl) (by rfl) (by rfl)⟩

end PluginOptions
